import Mathlib

/-!
Verification development for the USGS water-data pipeline
(`daily_values.py`, `data_loader.py`, `eda.py`).

The Python source is shallowly embedded: JSON-ish values become a small
inductive type, dataframes become a column-list plus rows of cells, and
the external libraries (`json`, `requests`, `pandas`) are modelled at the
granularity the pipeline uses them (flat JSON objects, left merges with
`_x`/`_y` suffixing, lenient numeric/datetime coercion, stable sorting).
Fallible code returns `Except String`.
-/

/-! ## JSON-ish scalar values (feature ids in `extract_location_ids`) -/

/-- Scalar JSON value as it can appear in an `id` field of a GeoJSON
feature: null, boolean, integer or string. -/
inductive JVal : Type
  | jnull : JVal
  | jbool : Bool → JVal
  | jnum : Int → JVal
  | jstr : String → JVal
deriving DecidableEq, Repr

/-- Python truthiness of a scalar JSON value (`if props.get("id"):`). -/
def pyTruthy : JVal → Bool
  | JVal.jnull => false
  | JVal.jbool b => b
  | JVal.jnum n => n ≠ 0
  | JVal.jstr s => s ≠ ""

/-- Python `str(...)` of a scalar JSON value. -/
def pyStr : JVal → String
  | JVal.jnull => "None"
  | JVal.jbool b => if b then "True" else "False"
  | JVal.jnum n => toString n
  | JVal.jstr s => s

/-- The `"properties"` entry of a feature: absent (Python `.get` default
`{}`), present but not a dict (`isinstance` fails), or a dict whose `"id"`
entry is `idv` (with `none` meaning the key is absent). -/
inductive PropsField : Type
  | absent : PropsField
  | nondict : PropsField
  | dict : Option JVal → PropsField
deriving DecidableEq, Repr

/-- One GeoJSON feature as consumed by `extract_location_ids`:
its `"properties"` entry and its optional top-level `"id"` entry. -/
structure Feature where
  properties : PropsField
  fid : Option JVal
deriving DecidableEq, Repr

/-- A locations FeatureCollection (`locations_json`): its `"features"`
list (`locations_json.get("features", [])`, taken to be a list). -/
structure LocationsJson where
  features : List Feature
deriving DecidableEq, Repr

/-- The `"id"` value inside the feature's properties dict, when
`"properties"` maps to a dict that has an `"id"` key (Python
`props.get("id")` after `isinstance(props, dict)`). -/
def propsId : Feature → Option JVal
  | ⟨PropsField.dict i, _⟩ => i
  | ⟨PropsField.absent, _⟩ => none
  | ⟨PropsField.nondict, _⟩ => none

/-- The `elif f.get("id"):` branch: the top-level id when present and
truthy, coerced to a string. -/
def topIdStr (f : Feature) : Option String :=
  match f.fid with
  | some v => if pyTruthy v then some (pyStr v) else none
  | none => none

/-- Body of the `for f in features:` loop of `extract_location_ids`:
the string appended to `ids` for feature `f`, if any.
`if isinstance(props, dict) and props.get("id"): ids.append(str(props["id"]))`
`elif f.get("id"): ids.append(str(f["id"]))`. -/
def featureIdStr (f : Feature) : Option String :=
  match propsId f with
  | some v => if pyTruthy v then some (pyStr v) else topIdStr f
  | none => topIdStr f

/-- The de-duplication loop of `extract_location_ids` (and the row loop of
`DataFrame.drop_duplicates`): walk the list keeping the `seen` set (as a
list) and the output built by `append`. -/
def dedupeGo {α : Type} [DecidableEq α] : List α → List α → List α → List α
  | [], _, out => out
  | x :: xs, seen, out =>
      if x ∈ seen then dedupeGo xs seen out
      else dedupeGo xs (x :: seen) (out ++ [x])

/-- First-occurrence de-duplication (`seen = set(); out = []; for x in ids: ...`). -/
def pyDedupe {α : Type} [DecidableEq α] (xs : List α) : List α :=
  dedupeGo xs [] []

/-- `extract_location_ids` from `daily_values.py`: collect the per-feature
id strings in order, then de-duplicate preserving first occurrences. -/
def extract_location_ids (locations_json : LocationsJson) : List String :=
  pyDedupe (locations_json.features.filterMap featureIdStr)

/-! ## `chunk_list` (the Batcher) -/

/-- Slice-comprehension core of `chunk_list` for a positive step:
`[items[i : i + chunk_size] for i in range(0, len(items), chunk_size)]`.
`range(0, n, s)` with `s > 0` has `⌈n / s⌉` elements `0, s, 2s, …`. -/
def chunkCore {α : Type} (items : List α) (chunk_size : Nat) : List (List α) :=
  (List.range' 0 ((items.length + chunk_size - 1) / chunk_size) chunk_size).map
    (fun i => (items.drop i).take chunk_size)

/-- `chunk_list` from `daily_values.py`. The chunk size is an `int` coming
from the environment, so it can be zero (Python `range` raises) or
negative (`range(0, n, step)` with `step < 0` and `n ≥ 0` is empty). -/
def chunk_list {α : Type} (items : List α) (chunk_size : Int) : Except String (List (List α)) :=
  if chunk_size = 0 then Except.error "ValueError: range() arg 3 must not be zero"
  else if chunk_size < 0 then Except.ok []
  else Except.ok (chunkCore items chunk_size.toNat)

/-! ## Fetch Client and Aggregator (`fetch_daily_values_for_locations`) -/

/-- Strip leading spaces from a character list. -/
def skipWs : List Char → List Char
  | [] => []
  | c :: cs => if c = ' ' then skipWs cs else c :: cs

/-- Scan to the closing quote of a JSON string literal (escape-free model:
the configuration templates this pipeline reads contain none). -/
def strLitAux : List Char → Option (List Char)
  | [] => none
  | c :: cs => if c = '"' then some cs else strLitAux cs

/-- Consume one JSON string literal, returning the rest of the input. -/
def parseStringLit : List Char → Option (List Char)
  | '"' :: rest => strLitAux rest
  | _ => none

/-- Validity of the `"key": "value"` pair list of a flat JSON object,
entered just after the opening brace (fuelled recursion). -/
def jsonPairs : Nat → List Char → Bool
  | 0, _ => false
  | fuel + 1, cs =>
    match parseStringLit (skipWs cs) with
    | none => false
    | some rest1 =>
      match skipWs rest1 with
      | ':' :: rest2 =>
        match parseStringLit (skipWs rest2) with
        | none => false
        | some rest3 =>
          match skipWs rest3 with
          | ',' :: rest4 => jsonPairs fuel rest4
          | '}' :: rest5 => skipWs rest5 = []
          | _ => false
      | _ => false

/-- Model of `json.loads` succeeding on the configured query-parameter
template, restricted to the flat string-valued objects this pipeline
configures (e.g. a parameter-code/format map). -/
def jsonLoadsFlat (s : String) : Bool :=
  match skipWs s.toList with
  | '{' :: rest =>
    match skipWs rest with
    | '}' :: rest2 => skipWs rest2 = []
    | cs => jsonPairs (s.length + 1) cs
  | _ => false

/-- Digit-list value accumulator for `int(...)`. -/
def digitsVal : List Char → Nat → Option Nat
  | [], acc => some acc
  | c :: cs, acc =>
      if c.isDigit then digitsVal cs (acc * 10 + (c.toNat - 48)) else none

/-- Python `int(s)` on a string: strip spaces, optional sign, digits. -/
def pyIntOfStr (s : String) : Option Int :=
  match skipWs (skipWs s.toList.reverse).reverse with
  | '-' :: ds => if ds = [] then none else (digitsVal ds 0).map (fun n => -(n : Int))
  | '+' :: ds => if ds = [] then none else (digitsVal ds 0).map (fun n => (n : Int))
  | ds => if ds = [] then none else (digitsVal ds 0).map (fun n => (n : Int))

/-- The environment variables `fetch_daily_values_for_locations` and
`calculate_time_range` read (`os.getenv` yields `none` when unset). -/
structure FetchEnv where
  usgs_dv_base_url : Option String
  dv_query_params : Option String
  dv_batch_size : Option String
  api_timeout_seconds : Option String
  dv_time_range_days : Option String
deriving DecidableEq, Repr

/-- The `if not value: raise RuntimeError(msg)` pattern (`None` and the
empty string are both falsy). -/
def requireEnv (v : Option String) (msg : String) : Except String String :=
  match v with
  | some s => if s = "" then Except.error msg else Except.ok s
  | none => Except.error msg

/-- Python `int(os.getenv(name))`: `int(None)` raises `TypeError`,
an unparseable string raises `ValueError`. -/
def pyIntEnv (v : Option String) (name : String) : Except String Int :=
  match v with
  | none => Except.error ("TypeError: int() argument is None: " ++ name)
  | some s =>
    match pyIntOfStr s with
    | some n => Except.ok n
    | none => Except.error ("ValueError: invalid literal for int(): " ++ name)

/-- The `try: json.loads(raw) / except: raise RuntimeError` step for
`DV_QUERY_PARAMS`. -/
def jsonLoadsStep (raw : String) : Except String Unit :=
  if jsonLoadsFlat raw then Except.ok ()
  else Except.error "DV_QUERY_PARAMS is not valid JSON"

/-- `calculate_time_range` from `daily_values.py`, modelled up to the
wall-clock formatting: only the `int(os.getenv("DV_TIME_RANGE_DAYS"))`
parse is represented (the returned interval string depends on the
unmodelled current time and is used opaquely). -/
def calculate_time_range (dv_time_range_days : Option String) : Except String Int :=
  pyIntEnv dv_time_range_days "DV_TIME_RANGE_DAYS"

/-- The `"features"` entry of one batch response: absent
(`data.get("features", [])` defaults to the empty list), present but not
a list (`isinstance(features, list)` fails), or an actual list. -/
inductive FeaturesField (α : Type) : Type
  | absent : FeaturesField α
  | notList : FeaturesField α
  | list : List α → FeaturesField α
deriving DecidableEq, Repr

/-- Features a response contributes to `all_features`
(`all_features.extend(features)` runs only on a list; the default `[]`
extends by nothing). -/
def featuresContributed {α : Type} : FeaturesField α → List α
  | FeaturesField.absent => []
  | FeaturesField.notList => []
  | FeaturesField.list fs => fs

/-- One parsed batch response body: its non-feature top-level entries
(`meta`) and its `"features"` entry. Feature payloads are opaque (`α`). -/
structure DVResponse (α : Type) where
  meta : List (String × String)
  features : FeaturesField α
deriving DecidableEq, Repr

/-- The Combined Daily-Values Result assembled at the end of
`fetch_daily_values_for_locations`. -/
structure CombinedDV (α : Type) where
  meta : List (String × String)
  features : List α
  numberReturned : Nat
  total_features : Nat
  batch_size : Int
  batches : Nat
deriving DecidableEq, Repr

/-- The per-batch request loop plus combined-result assembly
(lines 121–157 of `daily_values.py`): issue one request per batch in
order (`http` is the network: it returns the parsed body of a successful
`GET`, or the error `raise_for_status`/transport raises, which aborts the
run), keep the first response's non-feature entries as meta, extend
`all_features` with each list-shaped feature field, then build the
combined dictionary. -/
def aggregateBatches {α : Type} (batch_size : Int) (batches : List (List String))
    (http : List String → Except String (DVResponse α)) :
    Except String (CombinedDV α) := do
  let resps ← batches.mapM http
  let all_features := (resps.map (fun r => featuresContributed r.features)).flatten
  Except.ok {
    meta := (resps.head?).elim [] DVResponse.meta,
    features := all_features,
    numberReturned := all_features.length,
    total_features := all_features.length,
    batch_size := batch_size,
    batches := batches.length }

/-- `fetch_daily_values_for_locations` from `daily_values.py`: validate
and parse the configuration, extract ids, fail on an empty id set, parse
the day count (`calculate_time_range`), chunk, then run the batch loop. -/
def fetch_daily_values_for_locations {α : Type} (env : FetchEnv)
    (locations_json : LocationsJson)
    (http : List String → Except String (DVResponse α)) :
    Except String (CombinedDV α) := do
  let _dv_base_url ← requireEnv env.usgs_dv_base_url "Missing USGS_DV_BASE_URL in .env"
  let raw_params ← requireEnv env.dv_query_params "Missing DV_QUERY_PARAMS in .env (must be JSON)"
  let _params ← jsonLoadsStep raw_params
  let batch_size ← pyIntEnv env.dv_batch_size "DV_BATCH_SIZE"
  let _timeout ← pyIntEnv env.api_timeout_seconds "API_TIMEOUT_SECONDS"
  let ids := extract_location_ids locations_json
  let _ ← if ids.isEmpty then
      Except.error "No monitoring location IDs found in locations JSON"
    else Except.ok ()
  let _days ← calculate_time_range env.dv_time_range_days
  let batches ← chunk_list ids batch_size
  aggregateBatches batch_size batches http

/-- Example network for the C1 witness: first batch answers with three
features, second with two. -/
def dvHttpEx : List String → Except String (DVResponse Nat) :=
  fun b =>
    if b = ["a", "b"] then
      Except.ok ⟨[("type", "FeatureCollection")], FeaturesField.list [1, 2, 3]⟩
    else
      Except.ok ⟨[("type", "FeatureCollection")], FeaturesField.list [4, 5]⟩

/-- The two responses `dvHttpEx` gives on batches `["a","b"]` and `["c"]`. -/
def dvRespsEx : List (DVResponse Nat) :=
  [⟨[("type", "FeatureCollection")], FeaturesField.list [1, 2, 3]⟩,
   ⟨[("type", "FeatureCollection")], FeaturesField.list [4, 5]⟩]

/-! ## Configuration validation (C6) -/

/-- A configuration in which a required setting is missing (unset or
empty), the query template is malformed JSON, or a numeric setting is not
integer-parseable. -/
def envMissingOrMalformed (env : FetchEnv) : Prop :=
  env.usgs_dv_base_url = none ∨ env.usgs_dv_base_url = some "" ∨
  env.dv_query_params = none ∨ env.dv_query_params = some "" ∨
  (∃ s, env.dv_query_params = some s ∧ jsonLoadsFlat s = false) ∨
  env.dv_batch_size = none ∨
  (∃ s, env.dv_batch_size = some s ∧ pyIntOfStr s = none) ∨
  env.api_timeout_seconds = none ∨
  (∃ s, env.api_timeout_seconds = some s ∧ pyIntOfStr s = none) ∨
  env.dv_time_range_days = none ∨
  (∃ s, env.dv_time_range_days = some s ∧ pyIntOfStr s = none)

/-- The configuration for the C6 counterexample: everything set and
well-formed except that the batch size is the negative integer `-5`
(so no positive batch size is present). -/
def envNegBatch : FetchEnv :=
  ⟨some "https://api.waterdata.example/daily", some "\x7b\"f\": \"json\"\x7d",
   some "-5", some "60", some "90"⟩

/-! ## DataFrame model (pandas, as used by `data_loader.py` and `eda.py`) -/

/-- One dataframe cell: missing (`NaN`/`NaT`/`None`), a string, a number
(floats modelled as rationals), or a datetime (dates encoded as the
integer `y*10000 + m*100 + d`, which orders like the date). -/
inductive Cell : Type
  | null : Cell
  | str : String → Cell
  | num : ℚ → Cell
  | dt : Int → Cell
deriving DecidableEq, Repr

/-- A dataframe: column labels plus rows of cells (row `i`, column `j` is
`rows[i][j]`). -/
structure DF where
  cols : List String
  rows : List (List Cell)
deriving DecidableEq, Repr

/-- Index of the first column with the given label. -/
def colIdx (df : DF) (c : String) : Option Nat :=
  df.cols.findIdx? (fun x => x == c)

/-- Cell of a row at a column index (rows are well-shaped in practice;
out-of-range reads yield `null`). -/
def getCell (r : List Cell) (i : Nat) : Cell :=
  r.getD i Cell.null

/-- `df[c] = f(df[c])` column transforms (the dtype coercions);
a missing column is a `KeyError`. -/
def mapColE (df : DF) (c : String) (f : Cell → Cell) : Except String DF :=
  match colIdx df c with
  | none => Except.error ("KeyError: " ++ c)
  | some i => Except.ok ⟨df.cols, df.rows.map (fun r => r.set i (f (getCell r i)))⟩

/-- `df.dropna(subset=[c]).reset_index(drop=True)`. -/
def dropnaSubsetE (df : DF) (c : String) : Except String DF :=
  match colIdx df c with
  | none => Except.error ("KeyError: " ++ c)
  | some i => Except.ok ⟨df.cols, df.rows.filter (fun r => !(getCell r i == Cell.null))⟩

/-- `df.drop(columns=[c])`: `KeyError` when the label is absent. -/
def dropColE (df : DF) (c : String) : Except String DF :=
  match colIdx df c with
  | none => Except.error ("KeyError: " ++ c)
  | some i => Except.ok ⟨df.cols.eraseIdx i, df.rows.map (fun r => r.eraseIdx i)⟩

/-- `if c in df.columns: df = df.drop(columns=[c])`. -/
def dropColIfPresent (df : DF) (c : String) : DF :=
  match colIdx df c with
  | none => df
  | some i => ⟨df.cols.eraseIdx i, df.rows.map (fun r => r.eraseIdx i)⟩

/-- `df.rename(columns=\x7ba: b\x7d)` (renames every matching label,
silently ignores an absent one). -/
def renameCol (df : DF) (a b : String) : DF :=
  ⟨df.cols.map (fun c => if c = a then b else c), df.rows⟩

/-- `df[cs]` column projection: `KeyError` when any label is absent. -/
def selectColsE (df : DF) (cs : List String) : Except String DF :=
  match cs.mapM (colIdx df) with
  | none => Except.error "KeyError: column not found"
  | some idxs => Except.ok ⟨cs, df.rows.map (fun r => idxs.map (fun i => getCell r i))⟩

/-- `DataFrame.drop_duplicates()` (whole-row duplicates, keep first). -/
def dropDuplicates (df : DF) : DF :=
  ⟨df.cols, pyDedupe df.rows⟩

/-- An all-null extension row for unmatched left rows. -/
def nullRow (n : Nat) : List Cell :=
  List.replicate n Cell.null

/-- `l.merge(r, how="left", left_on=lOn, right_on=rOn)`: labels occurring
on both sides are suffixed `_x`/`_y` (the key columns included, when they
collide); each left row is paired with every key-matching right row, in
order, or with an all-null extension when none matches; left row order is
preserved. -/
def mergeLeft (l r : DF) (lOn rOn : String) : Except String DF :=
  match colIdx l lOn, colIdx r rOn with
  | some li, some ri =>
    let overlap := l.cols.filter (fun c => decide (c ∈ r.cols))
    Except.ok ⟨l.cols.map (fun c => if c ∈ overlap then c ++ "_x" else c)
        ++ r.cols.map (fun c => if c ∈ overlap then c ++ "_y" else c),
      l.rows.flatMap (fun lr =>
        let ms := r.rows.filter (fun rr => getCell rr ri == getCell lr li)
        if ms.isEmpty then [lr ++ nullRow r.cols.length]
        else ms.map (fun rr => lr ++ rr))⟩
  | _, _ => Except.error "KeyError: merge key not found"

/-- The location columns `join_daily_values_with_locations` keeps. -/
def loc_keep : List String :=
  ["id", "agency_name", "monitoring_location_name", "country_name",
   "state_name", "county_name", "site_type"]

/-- `join_daily_values_with_locations` from `data_loader.py`. -/
def join_daily_values_with_locations (dv_df loc_df : DF) : Except String DF := do
  let loc_filtered ← selectColsE loc_df loc_keep
  mergeLeft dv_df loc_filtered "monitoring_location_id" "id"

/-! ## Cell coercions (pandas `to_numeric` / `to_datetime`, modelled) -/

/-- Integer part / fractional part split of a decimal literal. -/
def splitDot : List Char → List Char × Option (List Char)
  | [] => ([], none)
  | '.' :: rest => ([], some rest)
  | c :: rest =>
      let p := splitDot rest
      (c :: p.1, p.2)

/-- Unsigned decimal literal to a rational: `n.m` with `k` fractional
digits denotes `(n*10^k + m) / 10^k`. -/
def parseDecimalCore (cs : List Char) : Option ℚ :=
  match splitDot cs with
  | (ip, none) =>
      if ip.isEmpty then none
      else (digitsVal ip 0).map (fun n => mkRat (Int.ofNat n) 1)
  | (ip, some fp) =>
      if ip.isEmpty && fp.isEmpty then none
      else
        match digitsVal ip 0, digitsVal fp 0 with
        | some n, some m =>
            some (mkRat (Int.ofNat (n * 10 ^ fp.length + m)) (10 ^ fp.length))
        | _, _ => none

/-- Model of Python float parsing (`pd.to_numeric` on a string cell):
strip spaces, optional sign, decimal digits with an optional point. -/
def parseDecimal (s : String) : Option ℚ :=
  match skipWs (skipWs s.toList.reverse).reverse with
  | '-' :: ds => (parseDecimalCore ds).map (fun q => -q)
  | '+' :: ds => parseDecimalCore ds
  | ds => parseDecimalCore ds

/-- `pd.to_numeric(col, errors="coerce")` on one cell: numbers pass
through, parseable strings become numbers, everything else becomes null
(a datetime cell yields its integer encoding, the epoch view). -/
def toNumericCell : Cell → Cell
  | Cell.null => Cell.null
  | Cell.num q => Cell.num q
  | Cell.dt t => Cell.num (mkRat t 1)
  | Cell.str s =>
      match parseDecimal s with
      | some q => Cell.num q
      | none => Cell.null

/-- Model of the datetime parser on `YYYY-MM-DD` strings. -/
def parseDT (s : String) : Option Int :=
  match s.toList with
  | [y1, y2, y3, y4, '-', m1, m2, '-', d1, d2] =>
      if y1.isDigit && y2.isDigit && y3.isDigit && y4.isDigit &&
         m1.isDigit && m2.isDigit && d1.isDigit && d2.isDigit then
        let y := (y1.toNat - 48) * 1000 + (y2.toNat - 48) * 100
          + (y3.toNat - 48) * 10 + (y4.toNat - 48)
        let m := (m1.toNat - 48) * 10 + (m2.toNat - 48)
        let d := (d1.toNat - 48) * 10 + (d2.toNat - 48)
        if 1 ≤ m && m ≤ 12 && 1 ≤ d && d ≤ 31 then
          some ((y * 10000 + m * 100 + d : Nat) : Int)
        else none
      else none
  | _ => none

/-- Zero-padded two-digit rendering. -/
def pad2 (n : Nat) : String :=
  if n < 10 then "0" ++ toString n else toString n

/-- Zero-padded four-digit rendering. -/
def pad4 (n : Nat) : String :=
  if n < 10 then "000" ++ toString n
  else if n < 100 then "00" ++ toString n
  else if n < 1000 then "0" ++ toString n
  else toString n

/-- Rendering of a datetime cell back to its `YYYY-MM-DD` string
(`astype(str)` on a datetime column). -/
def renderDT (t : Int) : String :=
  pad4 (t.toNat / 10000) ++ "-" ++ pad2 (t.toNat / 100 % 100) ++ "-" ++ pad2 (t.toNat % 100)

/-- `.astype(str)` on one cell (`NaN` prints as `"nan"`). -/
def cellPyStr : Cell → String
  | Cell.null => "nan"
  | Cell.str s => s
  | Cell.num q => toString q
  | Cell.dt t => renderDT t

/-- The `time` coercion:
`pd.to_datetime(df["time"].astype(str).str.strip(), errors="coerce")`. -/
def toDatetimeStrCell (c : Cell) : Cell :=
  match parseDT (String.mk (skipWs (skipWs (cellPyStr c).toList.reverse).reverse)) with
  | some t => Cell.dt t
  | none => Cell.null

/-- The `last_modified` coercion:
`pd.to_datetime(col, errors="coerce", utc=True)` (no string round-trip;
numeric-epoch inputs fall outside this date-string model and coerce to
null). -/
def toDatetimeCell : Cell → Cell
  | Cell.null => Cell.null
  | Cell.dt t => Cell.dt t
  | Cell.num _ => Cell.null
  | Cell.str s =>
      match parseDT s with
      | some t => Cell.dt t
      | none => Cell.null

/-- The final column list of `clean_and_transform_data`. -/
def final_cols : List String :=
  ["id", "monitoring_location_id", "monitoring_location_name", "site_type",
   "time", "last_modified", "parameter_code", "parameter_name", "value",
   "unit_of_measure", "statistic_id", "statistic_description",
   "approval_status", "agency_name", "state_name", "county_name"]

/-- `clean_and_transform_data` from `eda.py`: parse dates, coerce the
value column, drop rows with a null value, drop `qualifier` when present,
join the two (pair-)de-duplicated lookups, drop each lookup's `id` after
its merge, rename `id_x` back to `id`, and project to `final_cols`. -/
def clean_and_transform_data (joined_df param_df stat_df : DF) : Except String DF := do
  let df1 ← mapColE joined_df "time" toDatetimeStrCell
  let df2 ← mapColE df1 "last_modified" toDatetimeCell
  let df3 ← mapColE df2 "value" toNumericCell
  let df4 ← dropnaSubsetE df3 "value"
  let df5 := dropColIfPresent df4 "qualifier"
  let param_small0 ← selectColsE param_df ["id", "parameter_name"]
  let df6 ← mergeLeft df5 (dropDuplicates param_small0) "parameter_code" "id"
  let df7 ← dropColE df6 "id"
  let stat_small0 ← selectColsE stat_df ["id", "statistic_description"]
  let df8 ← mergeLeft df7 (dropDuplicates stat_small0) "statistic_id" "id"
  let df9 ← dropColE df8 "id"
  selectColsE (renameCol df9 "id_x" "id") final_cols

/-- Daily-values table for the joiner examples: one row for site `"a"`. -/
def dvOneRow : DF :=
  ⟨["monitoring_location_id", "value"], [[Cell.str "a", Cell.num 1]]⟩

/-- Location table with two distinct rows sharing the id `"a"`. -/
def locDupIds : DF :=
  ⟨loc_keep,
   [[Cell.str "a", Cell.str "USGS", Cell.str "Site A", Cell.str "US",
     Cell.str "NM", Cell.str "Bernalillo", Cell.str "Stream"],
    [Cell.str "a", Cell.str "USGS", Cell.str "Site A prime", Cell.str "US",
     Cell.str "NM", Cell.str "Sandoval", Cell.str "Stream"]]⟩

/-- Location table with unique ids (`"a"` only) for witnesses. -/
def locOneRow : DF :=
  ⟨loc_keep,
   [[Cell.str "a", Cell.str "USGS", Cell.str "Site A", Cell.str "US",
     Cell.str "NM", Cell.str "Bernalillo", Cell.str "Stream"]]⟩

/-- Daily-values table with one matching and one unmatched row. -/
def dvTwoRow : DF :=
  ⟨["monitoring_location_id", "value"],
   [[Cell.str "a", Cell.num 1], [Cell.str "zzz", Cell.num 2]]⟩

/-- The column layout of the joined table the pipeline produces (the
daily-values columns, with the `id` collision suffixed by the join,
followed by the selected location columns). -/
def stdJoinedCols : List String :=
  ["id_x", "monitoring_location_id", "parameter_code", "statistic_id", "time",
   "value", "unit_of_measure", "approval_status", "qualifier", "last_modified",
   "id_y", "agency_name", "monitoring_location_name", "country_name",
   "state_name", "county_name", "site_type"]

/-- `stdJoinedCols` with the `qualifier` column dropped. -/
def cleanCols5 : List String :=
  ["id_x", "monitoring_location_id", "parameter_code", "statistic_id", "time",
   "value", "unit_of_measure", "approval_status", "last_modified",
   "id_y", "agency_name", "monitoring_location_name", "country_name",
   "state_name", "county_name", "site_type"]

/-- Columns after the parameter-name merge. -/
def cleanCols6 : List String := cleanCols5 ++ ["id", "parameter_name"]

/-- Columns after dropping the parameter lookup's `id`. -/
def cleanCols7 : List String := cleanCols5 ++ ["parameter_name"]

/-- Columns after the statistic-description merge. -/
def cleanCols8 : List String := cleanCols7 ++ ["id", "statistic_description"]

/-- Columns after dropping the statistic lookup's `id`. -/
def cleanCols9 : List String := cleanCols7 ++ ["statistic_description"]

/-- Columns after renaming `id_x` back to `id`. -/
def cleanCols10 : List String :=
  ["id", "monitoring_location_id", "parameter_code", "statistic_id", "time",
   "value", "unit_of_measure", "approval_status", "last_modified",
   "id_y", "agency_name", "monitoring_location_name", "country_name",
   "state_name", "county_name", "site_type", "parameter_name",
   "statistic_description"]

/-- Decidable equality of `Except` results, for evaluating the pipeline
on concrete tables. -/
instance exceptDecEq {e a : Type} [DecidableEq e] [DecidableEq a] :
    DecidableEq (Except e a) := fun x y =>
  match x, y with
  | Except.ok u, Except.ok v =>
      if h : u = v then isTrue (by rw [h])
      else isFalse (fun he => h (by injection he))
  | Except.error u, Except.error v =>
      if h : u = v then isTrue (by rw [h])
      else isFalse (fun he => h (by injection he))
  | Except.ok _, Except.error _ => isFalse (fun he => by injection he)
  | Except.error _, Except.ok _ => isFalse (fun he => by injection he)

/-- Example joined table: one row with a parseable value (`"3.5"`) and
one with a non-numeric value (`"not_a_number"`). -/
def joinedEx : DF :=
  ⟨stdJoinedCols,
   [[Cell.str "dv1", Cell.str "a", Cell.num 60, Cell.num 3, Cell.str "2024-01-05",
     Cell.str "3.5", Cell.str "ft3/s", Cell.str "Approved", Cell.null,
     Cell.str "2024-01-06", Cell.str "a", Cell.str "USGS", Cell.str "Site A",
     Cell.str "US", Cell.str "NM", Cell.str "Bernalillo", Cell.str "Stream"],
    [Cell.str "dv2", Cell.str "a", Cell.num 60, Cell.num 3, Cell.str "2024-01-04",
     Cell.str "not_a_number", Cell.str "ft3/s", Cell.str "Approved", Cell.null,
     Cell.str "2024-01-05", Cell.str "a", Cell.str "USGS", Cell.str "Site A",
     Cell.str "US", Cell.str "NM", Cell.str "Bernalillo", Cell.str "Stream"]]⟩

/-- Parameter-code lookup table for the examples. -/
def paramEx : DF :=
  ⟨["id", "parameter_name"], [[Cell.num 60, Cell.str "Discharge"]]⟩

/-- Statistic-code lookup table for the examples. -/
def statEx : DF :=
  ⟨["id", "statistic_description"], [[Cell.num 3, Cell.str "Mean"]]⟩

/-- The cleaned output of `joinedEx`: only the `"3.5"` row survives. -/
def cleanedEx : DF :=
  ⟨final_cols,
   [[Cell.str "dv1", Cell.str "a", Cell.str "Site A", Cell.str "Stream",
     Cell.dt 20240105, Cell.dt 20240106, Cell.num 60, Cell.str "Discharge",
     Cell.num (mkRat 7 2), Cell.str "ft3/s", Cell.num 3, Cell.str "Mean",
     Cell.str "Approved", Cell.str "USGS", Cell.str "NM", Cell.str "Bernalillo"]]⟩

/-- A joined table whose single row has a numeric value but a garbage
time string. -/
def joinedBadTime : DF :=
  ⟨stdJoinedCols,
   [[Cell.str "dv1", Cell.str "a", Cell.num 60, Cell.num 3, Cell.str "garbage",
     Cell.str "3.5", Cell.str "ft3/s", Cell.str "Approved", Cell.null,
     Cell.str "2024-01-06", Cell.str "a", Cell.str "USGS", Cell.str "Site A",
     Cell.str "US", Cell.str "NM", Cell.str "Bernalillo", Cell.str "Stream"]]⟩

/-- Parameter lookup with one code mapped to two distinct names: the
pair-wise `drop_duplicates()` removes nothing, so the code column still
has a duplicate. -/
def paramDup : DF :=
  ⟨["id", "parameter_name"],
   [[Cell.num 60, Cell.str "Discharge"], [Cell.num 60, Cell.str "Discharge, alt"]]⟩

/-- Daily-values table that itself has an `id` column, to exercise the
`id_x`/`id_y` collision suffixing. -/
def dvWithId : DF :=
  ⟨["id", "monitoring_location_id"], [[Cell.str "x", Cell.str "a"]]⟩

/-! ## Summarizer (`produce_summary_by_site`, eda.py lines 145-241) -/

/-- Insert into a sorted list, before the first element it compares
less-or-equal to (the stable position for an element that preceded the
list's elements in the original order). -/
def ordInsert {α : Type} (le : α → α → Bool) (x : α) : List α → List α
  | [] => [x]
  | y :: ys => if le x y then x :: y :: ys else y :: ordInsert le x ys

/-- Stable insertion sort (`DataFrame.sort_values`: ascending, ties keep
the input order, so equal keys appear in original relative order). -/
def insSort {α : Type} (le : α → α → Bool) : List α → List α
  | [] => []
  | x :: xs => ordInsert le x (insSort le xs)

/-- Ordering of `time` cells under `sort_values("time")`: datetimes
ascend, and a missing time (`NaT`) sorts after every datetime
(`na_position="last"`). -/
def timeLe : Cell → Cell → Bool
  | Cell.dt x, Cell.dt y => decide (x ≤ y)
  | Cell.dt _, _ => true
  | _, Cell.dt _ => false
  | _, _ => true

/-- Row ordering by the `time` column at index `ti`. -/
def rowTimeLe (ti : Nat) (a b : List Cell) : Bool :=
  timeLe (getCell a ti) (getCell b ti)

/-- Lexicographic ordering of (site name, parameter name) group keys
(`groupby(..., sort=True)` and the final `sort_values`). -/
def keyLe (a b : String × String) : Bool :=
  if a.1 = b.1 then decide (a.2 ≤ b.2) else decide (a.1 < b.1)

/-- The (site name, parameter name) group key of a row; a row with a
non-string entry in either key column joins no group (`groupby` drops
null keys). -/
def keyOf (mi pj : Nat) (r : List Cell) : Option (String × String) :=
  match getCell r mi, getCell r pj with
  | Cell.str s, Cell.str p => some (s, p)
  | _, _ => none

/-- Membership of a row in the group of key `k`. -/
def keyMatch (mi pj : Nat) (k : String × String) (r : List Cell) : Bool :=
  getCell r mi == Cell.str k.1 && getCell r pj == Cell.str k.2

/-- The numeric content of a cell, when present. -/
def cellNumVal : Cell → Option ℚ
  | Cell.num q => some q
  | _ => none

/-- The datetime content of a cell, when present. -/
def cellDtVal : Cell → Option Int
  | Cell.dt t => some t
  | _ => none

/-- Whether a cell is a datetime. -/
def cellIsDt : Cell → Bool
  | Cell.dt _ => true
  | _ => false

/-- Minimum of two rationals. -/
def qmin (a b : ℚ) : ℚ := if a ≤ b then a else b

/-- Maximum of two rationals. -/
def qmax (a b : ℚ) : ℚ := if a ≤ b then b else a

/-- Maximum of two integers. -/
def imax (a b : Int) : Int := if a ≤ b then b else a

/-- Round a rational to the nearest integer, halves to even (the
rounding of numpy/pandas `.round`). -/
def roundHalfEvenQ (q : ℚ) : Int :=
  let d : Int := (q.den : Int)
  let f : Int := Int.fdiv q.num d
  let r2 : Int := 2 * (q.num - f * d)
  if r2 < d then f
  else if d < r2 then f + 1
  else if f % 2 = 0 then f else f + 1

/-- `.round(2)`: round to 2 decimal places, halves to even. -/
def round2 (q : ℚ) : ℚ :=
  mkRat (roundHalfEvenQ (mkRat (q.num * 100) q.den)) 100

/-- `.round(2)` on one cell (non-numeric cells, such as `NaN`, pass
through). -/
def roundCell : Cell → Cell
  | Cell.num q => Cell.num (round2 q)
  | c => c

/-- Python `str.replace(", NM", "")`: delete every (non-overlapping,
left-to-right) occurrence of `", NM"`. -/
def dropNM : List Char → List Char
  | ',' :: ' ' :: 'N' :: 'M' :: rest => dropNM rest
  | c :: rest => c :: dropNM rest
  | [] => []

/-- `summary["monitoring_location_name"].str.replace(", NM", "")`. -/
def replaceNM (s : String) : String :=
  String.mk (dropNM s.data)

/-- One row of the printed summary table. -/
structure SummaryRow where
  site : String
  parameter : String
  observations : Nat
  min_value : Cell
  max_value : Cell
  avg_value : Cell
  most_recent_time : Cell
  most_recent_value : Cell
  unit_of_measure : Cell
deriving DecidableEq, Repr

/-- The summary row of one (site, parameter) group: observation count of
non-null values, min/max/mean of the numeric values (mean as exact
rational `sum/count`), all rounded to 2 places; most recent time as the
maximum datetime (nulls skipped) rendered `YYYY-MM-DD`; most recent value
and unit from the group's last row after the stable time sort
(`df.sort_values("time").groupby(...).tail(1)`). -/
def summaryFor (rows : List (List Cell)) (mi pj vi ti ui : Nat)
    (k : String × String) : SummaryRow :=
  let g := rows.filter (keyMatch mi pj k)
  let vals := g.filterMap (fun r => cellNumVal (getCell r vi))
  let times := g.filterMap (fun r => cellDtVal (getCell r ti))
  let recent := ((insSort (rowTimeLe ti) rows).filter (keyMatch mi pj k)).getLast?
  { site := replaceNM k.1
    parameter := k.2
    observations := ((g.map (fun r => getCell r vi)).filter
      (fun c => !(c == Cell.null))).length
    min_value := match vals with
      | [] => Cell.null
      | q :: qs => Cell.num (round2 (qs.foldl qmin q))
    max_value := match vals with
      | [] => Cell.null
      | q :: qs => Cell.num (round2 (qs.foldl qmax q))
    avg_value := match vals with
      | [] => Cell.null
      | q :: qs => Cell.num (round2 (mkRat (qs.foldl (· + ·) q).num
          ((qs.foldl (· + ·) q).den * (qs.length + 1))))
    most_recent_time := match times with
      | [] => Cell.null
      | t :: ts => Cell.str (renderDT (ts.foldl imax t))
    most_recent_value := match recent with
      | some r => roundCell (getCell r vi)
      | none => Cell.null
    unit_of_measure := match recent with
      | some r => getCell r ui
      | none => Cell.null }

/-- Column lookup as pandas indexing: a missing label is a `KeyError`. -/
def colIdxE (df : DF) (c : String) : Except String Nat :=
  match colIdx df c with
  | some i => Except.ok i
  | none => Except.error ("KeyError: " ++ c)

/-- `produce_summary_by_site` from `eda.py`: one summary row per
(site name, parameter name) key, keys sorted ascending, groups in
input row order. -/
def produce_summary_by_site (df : DF) : Except String (List SummaryRow) := do
  let mi ← colIdxE df "monitoring_location_name"
  let pj ← colIdxE df "parameter_name"
  let vi ← colIdxE df "value"
  let ti ← colIdxE df "time"
  let ui ← colIdxE df "unit_of_measure"
  let keys := df.rows.filterMap (keyOf mi pj)
  Except.ok ((insSort keyLe (pyDedupe keys)).map (summaryFor df.rows mi pj vi ti ui))

/-- A cleaned table with one (site, parameter) group: values 1.0 at
2024-01-01 and 3.0 at 2024-01-02. -/
def summaryDfEx : DF :=
  ⟨final_cols,
   [[Cell.str "dv1", Cell.str "a", Cell.str "Site A", Cell.str "Stream",
     Cell.dt 20240101, Cell.dt 20240103, Cell.num 60, Cell.str "Discharge",
     Cell.num 1, Cell.str "ft3/s", Cell.num 3, Cell.str "Mean",
     Cell.str "Approved", Cell.str "USGS", Cell.str "NM", Cell.str "Bernalillo"],
    [Cell.str "dv2", Cell.str "a", Cell.str "Site A", Cell.str "Stream",
     Cell.dt 20240102, Cell.dt 20240103, Cell.num 60, Cell.str "Discharge",
     Cell.num 3, Cell.str "ft3/s", Cell.num 3, Cell.str "Mean",
     Cell.str "Approved", Cell.str "USGS", Cell.str "NM", Cell.str "Bernalillo"]]⟩

/-- A cleaned table whose second row has a null `time` (the Cleaner keeps
such rows): value 1.0 at 2024-01-01 and value 5.0 with no time. -/
def summaryNullTimeDf : DF :=
  ⟨final_cols,
   [[Cell.str "dv1", Cell.str "a", Cell.str "Site A", Cell.str "Stream",
     Cell.dt 20240101, Cell.dt 20240103, Cell.num 60, Cell.str "Discharge",
     Cell.num 1, Cell.str "ft3/s", Cell.num 3, Cell.str "Mean",
     Cell.str "Approved", Cell.str "USGS", Cell.str "NM", Cell.str "Bernalillo"],
    [Cell.str "dv2", Cell.str "a", Cell.str "Site A", Cell.str "Stream",
     Cell.null, Cell.dt 20240103, Cell.num 60, Cell.str "Discharge",
     Cell.num 5, Cell.str "ft3/s", Cell.num 3, Cell.str "Mean",
     Cell.str "Approved", Cell.str "USGS", Cell.str "NM", Cell.str "Bernalillo"]]⟩

/-! ## Properties of the Batcher -/

theorem chunkCore_nil {α : Type} (cs : Nat) : chunkCore ([] : List α) cs = [] := by
  unfold chunkCore
  have h : ((List.nil : List α).length + cs - 1) / cs = 0 := by
    simp only [List.length_nil, Nat.zero_add]
    rcases Nat.eq_zero_or_pos cs with h0 | h0
    · subst h0
      rfl
    · exact Nat.div_eq_of_lt (by omega)
  rw [h]
  rfl

theorem map_range'_add {β : Type} (f : Nat → β) (a step : Nat) :
    ∀ (k s : Nat), (List.range' (a + s) k step).map f
      = (List.range' s k step).map (fun i => f (a + i))
  | 0, _ => rfl
  | k + 1, s => by
      rw [List.range'_succ, List.range'_succ, List.map_cons, List.map_cons,
        Nat.add_assoc, map_range'_add f a step k (s + step)]

theorem chunkCore_cons {α : Type} (items : List α) (cs : Nat)
    (hcs : 0 < cs) (hne : items ≠ []) :
    chunkCore items cs = items.take cs :: chunkCore (items.drop cs) cs := by
  have hlen : 0 < items.length := List.length_pos.mpr hne
  unfold chunkCore
  have hk : (items.length + cs - 1) / cs
      = ((items.drop cs).length + cs - 1) / cs + 1 := by
    rw [List.length_drop]
    have e1 : items.length + cs - 1 = (items.length - 1) + cs := by omega
    rw [e1, Nat.add_div_right _ hcs]
    have e3 : (items.length - 1) / cs = (items.length - cs + cs - 1) / cs := by
      rcases le_or_lt cs items.length with h | h
      · congr 1
        omega
      · rw [Nat.div_eq_of_lt (by omega), Nat.div_eq_of_lt (by omega)]
    rw [e3]
  rw [hk, List.range'_succ, List.map_cons, List.drop_zero, Nat.zero_add]
  congr 1
  have hshift := map_range'_add (fun i => (items.drop i).take cs) cs cs
    (((items.drop cs).length + cs - 1) / cs) 0
  rw [Nat.add_zero] at hshift
  rw [hshift]
  exact List.map_congr_left fun i _ => by rw [List.drop_drop]

theorem chunkCore_flatten {α : Type} (cs : Nat) (hcs : 0 < cs)
    (items : List α) : (chunkCore items cs).flatten = items := by
  have H : ∀ (n : Nat) (items : List α), items.length = n →
      (chunkCore items cs).flatten = items := by
    intro n
    induction n using Nat.strong_induction_on with
    | _ n ih =>
      intro items hlen
      by_cases hne : items = []
      · subst hne
        rw [chunkCore_nil]
        rfl
      · rw [chunkCore_cons items cs hcs hne, List.flatten_cons]
        have hpos : 0 < items.length := List.length_pos.mpr hne
        have hdrop : (items.drop cs).length < n := by
          rw [List.length_drop]
          omega
        rw [ih _ (by omega) _ rfl, List.take_append_drop]
  exact H items.length items rfl

theorem chunkCore_chunk_len {α : Type} (cs : Nat) (hcs : 0 < cs)
    (items : List α) : ∀ c ∈ chunkCore items cs, c.length ≤ cs := by
  have H : ∀ (n : Nat) (items : List α), items.length = n →
      ∀ c ∈ chunkCore items cs, c.length ≤ cs := by
    intro n
    induction n using Nat.strong_induction_on with
    | _ n ih =>
      intro items hlen c hc
      by_cases hne : items = []
      · subst hne
        rw [chunkCore_nil] at hc
        cases hc
      · rw [chunkCore_cons items cs hcs hne] at hc
        have hpos : 0 < items.length := List.length_pos.mpr hne
        rcases List.mem_cons.mp hc with h | h
        · subst h
          exact items.length_take_le cs
        · have hdrop : (items.drop cs).length < n := by
            rw [List.length_drop]
            omega
          exact ih _ (by omega) _ rfl c h
  exact H items.length items rfl

/-- C2: for every list and every positive integer chunk size, `chunk_list`
returns chunks each of length at most the chunk size whose in-order
concatenation is exactly the original list, and the empty list yields zero
chunks. -/
theorem C2_chunk_list_partition {α : Type} (items : List α) (chunk_size : Int)
    (hpos : 0 < chunk_size) :
    ∃ chunks, chunk_list items chunk_size = Except.ok chunks ∧
      chunks.flatten = items ∧
      (∀ c ∈ chunks, (c.length : Int) ≤ chunk_size) ∧
      (items = [] → chunks = []) := by
  have hnat : 0 < chunk_size.toNat := by omega
  refine ⟨chunkCore items chunk_size.toNat, ?_, ?_, ?_, ?_⟩
  · unfold chunk_list
    rw [if_neg (by omega), if_neg (by omega)]
  · exact chunkCore_flatten _ hnat items
  · intro c hc
    have := chunkCore_chunk_len _ hnat items c hc
    omega
  · intro h
    subst h
    exact chunkCore_nil _

/-- Witness for C2 at `items = [1,2,3,4,5]`, `chunk_size = 2`. -/
theorem C2_chunk_list_partition_witness :
    0 < (2 : Int) ∧
    ∃ chunks, chunk_list [1, 2, 3, 4, 5] (2 : Int) = Except.ok chunks ∧
      chunks.flatten = [1, 2, 3, 4, 5] ∧
      (∀ c ∈ chunks, (c.length : Int) ≤ 2) ∧
      ([1, 2, 3, 4, 5] = ([] : List Nat) → chunks = []) :=
  ⟨by decide, C2_chunk_list_partition [1, 2, 3, 4, 5] 2 (by decide)⟩

/-! ## Properties of the Identifier Extractor -/

theorem dedupeGo_mem {α : Type} [DecidableEq α] :
    ∀ (xs seen out : List α) (x : α),
      x ∈ dedupeGo xs seen out ↔ x ∈ out ∨ (x ∈ xs ∧ x ∉ seen) := by
  intro xs
  induction xs with
  | nil => simp [dedupeGo]
  | cons a xs ih =>
    intro seen out x
    unfold dedupeGo
    by_cases ha : a ∈ seen
    · rw [if_pos ha, ih]
      simp only [List.mem_cons]
      constructor
      · rintro (h | ⟨h1, h2⟩)
        · exact Or.inl h
        · exact Or.inr ⟨Or.inr h1, h2⟩
      · rintro (h | ⟨h1 | h1, h2⟩)
        · exact Or.inl h
        · exact absurd (h1 ▸ ha) h2
        · exact Or.inr ⟨h1, h2⟩
    · rw [if_neg ha, ih]
      have hmem : x ∈ out ++ [a] ↔ x ∈ out ∨ x = a := by simp
      rw [hmem, List.mem_cons, List.mem_cons]
      by_cases hx : x = a
      · simp [hx, ha]
      · simp only [hx, false_or, or_false]

theorem dedupeGo_nodup {α : Type} [DecidableEq α] :
    ∀ (xs seen out : List α), out.Nodup → (∀ y ∈ out, y ∈ seen) →
      (dedupeGo xs seen out).Nodup := by
  intro xs
  induction xs with
  | nil =>
    intro seen out h _
    exact h
  | cons a xs ih =>
    intro seen out hnd hsub
    unfold dedupeGo
    by_cases ha : a ∈ seen
    · rw [if_pos ha]
      exact ih seen out hnd hsub
    · rw [if_neg ha]
      refine ih _ _ ?_ ?_
      · have hao : a ∉ out := fun h => ha (hsub a h)
        rw [List.nodup_append]
        refine ⟨hnd, List.nodup_singleton a, ?_⟩
        intro x hx hxa
        rw [List.mem_singleton] at hxa
        subst hxa
        exact hao hx
      · intro y hy
        rcases List.mem_append.mp hy with h | h
        · exact List.mem_cons_of_mem a (hsub y h)
        · rw [List.mem_singleton] at h
          rw [h]
          exact List.mem_cons_self a seen

theorem dedupeGo_order {α : Type} [DecidableEq α] :
    ∀ (xs seen out : List α), ∃ t, dedupeGo xs seen out = out ++ t ∧ t.Sublist xs := by
  intro xs
  induction xs with
  | nil =>
    intro seen out
    exact ⟨[], by simp [dedupeGo], List.nil_sublist _⟩
  | cons a xs ih =>
    intro seen out
    unfold dedupeGo
    by_cases ha : a ∈ seen
    · rw [if_pos ha]
      obtain ⟨t, h1, h2⟩ := ih seen out
      exact ⟨t, h1, h2.cons a⟩
    · rw [if_neg ha]
      obtain ⟨t, h1, h2⟩ := ih (a :: seen) (out ++ [a])
      exact ⟨a :: t, by rw [h1, List.append_assoc, List.singleton_append], h2.cons₂ a⟩

theorem pyDedupe_nodup {α : Type} [DecidableEq α] (xs : List α) :
    (pyDedupe xs).Nodup :=
  dedupeGo_nodup xs [] [] List.nodup_nil (by intro y hy; cases hy)

theorem pyDedupe_sublist {α : Type} [DecidableEq α] (xs : List α) :
    (pyDedupe xs).Sublist xs := by
  obtain ⟨t, h1, h2⟩ := dedupeGo_order xs [] []
  rw [List.nil_append] at h1
  rw [pyDedupe, h1]
  exact h2

theorem pyDedupe_mem {α : Type} [DecidableEq α] (xs : List α) (x : α) :
    x ∈ pyDedupe xs ↔ x ∈ xs := by
  rw [pyDedupe, dedupeGo_mem]
  simp

/-- C3: `extract_location_ids` takes each feature's identifier from
`properties.id` when present and truthy, else from the top-level `id` when
present and truthy, skips features supplying neither, coerces identifiers
to strings (`featureIdStr`), and returns the resulting list with
duplicates dropped: no duplicate values, relative order preserved (the
output is a sublist of the raw id list), and exactly the raw ids as
elements; features with ids `["a","b","a"]` yield `["a","b"]`. -/
theorem C3_extract_location_ids_spec (locations_json : LocationsJson) :
    (extract_location_ids locations_json).Nodup ∧
    (extract_location_ids locations_json).Sublist
      (locations_json.features.filterMap featureIdStr) ∧
    (∀ x, x ∈ extract_location_ids locations_json ↔
      x ∈ locations_json.features.filterMap featureIdStr) ∧
    (∀ f : Feature, ∀ v, propsId f = some v → pyTruthy v = true →
      featureIdStr f = some (pyStr v)) ∧
    (∀ f : Feature, ∀ v, propsId f = some v → pyTruthy v = false →
      featureIdStr f = topIdStr f) ∧
    (∀ f : Feature, propsId f = none → featureIdStr f = topIdStr f) ∧
    (extract_location_ids
      ⟨[⟨PropsField.dict (some (JVal.jstr "a")), none⟩,
        ⟨PropsField.dict (some (JVal.jstr "b")), none⟩,
        ⟨PropsField.dict (some (JVal.jstr "a")), none⟩]⟩ = ["a", "b"]) := by
  refine ⟨pyDedupe_nodup _, pyDedupe_sublist _, fun x => pyDedupe_mem _ x,
    ?_, ?_, ?_, by decide⟩
  · intro f v hv ht
    simp [featureIdStr, hv, ht]
  · intro f v hv ht
    simp [featureIdStr, hv, ht]
  · intro f hv
    simp [featureIdStr, hv]

/-! ## Properties of the Aggregator (C1) -/

/-- C1: over any sequence of successfully parsed batch responses, the
Combined Daily-Values Result's feature list is the in-order concatenation
of the per-batch feature lists, `numberReturned` and `total_features`
both equal its length, `batches` equals the number of batches issued, and
a response with a missing or non-list feature field contributes zero
features without raising an error. -/
theorem C1_aggregator_concat {α : Type} (batch_size : Int)
    (batches : List (List String))
    (http : List String → Except String (DVResponse α))
    (resps : List (DVResponse α))
    (hresp : batches.mapM http = Except.ok resps) :
    ∃ c, aggregateBatches batch_size batches http = Except.ok c ∧
      c.features = (resps.map (fun r => featuresContributed r.features)).flatten ∧
      c.numberReturned = c.features.length ∧
      c.total_features = c.features.length ∧
      c.batches = batches.length ∧
      featuresContributed (FeaturesField.absent : FeaturesField α) = [] ∧
      featuresContributed (FeaturesField.notList : FeaturesField α) = [] := by
  have hagg : aggregateBatches batch_size batches http = Except.ok {
      meta := (resps.head?).elim [] DVResponse.meta,
      features := (resps.map (fun r => featuresContributed r.features)).flatten,
      numberReturned := ((resps.map (fun r => featuresContributed r.features)).flatten).length,
      total_features := ((resps.map (fun r => featuresContributed r.features)).flatten).length,
      batch_size := batch_size,
      batches := batches.length } := by
    unfold aggregateBatches
    rw [hresp]
    rfl
  exact ⟨_, hagg, rfl, rfl, rfl, rfl, rfl, rfl⟩

/-- Witness for C1: two batches returning 3 and 2 features give a combined
result with 5 features in batch order, `batches = 2`. -/
theorem C1_aggregator_concat_witness :
    ([["a", "b"], ["c"]].mapM dvHttpEx = Except.ok dvRespsEx) ∧
    (∃ c, aggregateBatches 2 [["a", "b"], ["c"]] dvHttpEx = Except.ok c ∧
      c.features = (dvRespsEx.map (fun r => featuresContributed r.features)).flatten ∧
      c.numberReturned = c.features.length ∧
      c.total_features = c.features.length ∧
      c.batches = [["a", "b"], ["c"]].length ∧
      featuresContributed (FeaturesField.absent : FeaturesField Nat) = [] ∧
      featuresContributed (FeaturesField.notList : FeaturesField Nat) = []) :=
  ⟨by rfl, C1_aggregator_concat 2 [["a", "b"], ["c"]] dvHttpEx dvRespsEx (by rfl)⟩

theorem requireEnv_ok {v : Option String} {msg u : String}
    (h : requireEnv v msg = Except.ok u) : v = some u ∧ u ≠ "" := by
  cases v with
  | none => exact absurd h (by simp [requireEnv])
  | some s =>
    rw [requireEnv] at h
    by_cases hs : s = ""
    · rw [if_pos hs] at h
      cases h
    · rw [if_neg hs] at h
      injection h with h'
      subst h'
      exact ⟨rfl, hs⟩

theorem pyIntEnv_ok {v : Option String} {name : String} {n : Int}
    (h : pyIntEnv v name = Except.ok n) :
    ∃ s, v = some s ∧ pyIntOfStr s = some n := by
  cases v with
  | none => exact absurd h (by simp [pyIntEnv])
  | some s =>
    rw [pyIntEnv] at h
    cases hp : pyIntOfStr s with
    | none =>
      rw [hp] at h
      cases h
    | some m =>
      rw [hp] at h
      injection h with h'
      subst h'
      exact ⟨s, rfl, hp⟩

theorem exceptBind_ok {ε α β : Type} (a : α) (f : α → Except ε β) :
    (Except.ok a >>= f) = f a := rfl

theorem exceptBind_error {ε α β : Type} (e : ε) (f : α → Except ε β) :
    ((Except.error e : Except ε α) >>= f) = Except.error e := rfl

/-- C6 (amended): missing (unset or empty) required settings, a malformed
JSON template, and non-integer numeric settings are all surfaced as an
immediate fatal error, before any network request (the outcome does not
depend on the network oracle at all, hence also no retry). Positivity of
the numeric settings is NOT validated (see the counterexample). -/
theorem C6_config_error_immediate {α : Type} (env : FetchEnv) (lj : LocationsJson)
    (http http' : List String → Except String (DVResponse α))
    (hbad : envMissingOrMalformed env) :
    (fetch_daily_values_for_locations env lj http).isOk = false ∧
    fetch_daily_values_for_locations env lj http
      = fetch_daily_values_for_locations env lj http' := by
  unfold fetch_daily_values_for_locations
  cases h1 : requireEnv env.usgs_dv_base_url "Missing USGS_DV_BASE_URL in .env" with
  | error e =>
    exact ⟨rfl, rfl⟩
  | ok u =>
    simp only [exceptBind_ok]
    cases h2 : requireEnv env.dv_query_params "Missing DV_QUERY_PARAMS in .env (must be JSON)" with
    | error e =>
      exact ⟨rfl, rfl⟩
    | ok raw =>
      simp only [exceptBind_ok]
      cases h3 : jsonLoadsStep raw with
      | error e =>
        exact ⟨rfl, rfl⟩
      | ok unit1 =>
        simp only [exceptBind_ok]
        cases h4 : pyIntEnv env.dv_batch_size "DV_BATCH_SIZE" with
        | error e =>
          exact ⟨rfl, rfl⟩
        | ok bs =>
          simp only [exceptBind_ok]
          cases h5 : pyIntEnv env.api_timeout_seconds "API_TIMEOUT_SECONDS" with
          | error e =>
            exact ⟨rfl, rfl⟩
          | ok tmo =>
            simp only [exceptBind_ok]
            cases hids : (extract_location_ids lj).isEmpty with
            | true =>
              simp only [hids, if_true]
              exact ⟨rfl, rfl⟩
            | false =>
              simp only [hids, Bool.false_eq_true, if_false, exceptBind_ok]
              cases h6 : calculate_time_range env.dv_time_range_days with
              | error e =>
                exact ⟨rfl, rfl⟩
              | ok days =>
                exfalso
                obtain ⟨hu, hu2⟩ := requireEnv_ok h1
                obtain ⟨hr, hr2⟩ := requireEnv_ok h2
                obtain ⟨sb, hsb, hsb2⟩ := pyIntEnv_ok h4
                obtain ⟨st, hst, hst2⟩ := pyIntEnv_ok h5
                obtain ⟨sd, hsd, hsd2⟩ := pyIntEnv_ok h6
                have hjson : jsonLoadsFlat raw = true := by
                  by_contra hj
                  rw [jsonLoadsStep, if_neg hj] at h3
                  cases h3
                rcases hbad with h | h | h | h | ⟨s, hs, hsf⟩ | h | ⟨s, hs, hsf⟩
                  | h | ⟨s, hs, hsf⟩ | h | ⟨s, hs, hsf⟩
                · rw [h] at hu
                  cases hu
                · rw [h] at hu
                  injection hu with hu'
                  exact hu2 hu'.symm
                · rw [h] at hr
                  cases hr
                · rw [h] at hr
                  injection hr with hr'
                  exact hr2 hr'.symm
                · rw [hs] at hr
                  injection hr with hr'
                  rw [hr'] at hsf
                  rw [hjson] at hsf
                  cases hsf
                · rw [h] at hsb
                  cases hsb
                · rw [hs] at hsb
                  injection hsb with hsb'
                  rw [hsb'] at hsf
                  rw [hsb2] at hsf
                  cases hsf
                · rw [h] at hst
                  cases hst
                · rw [hs] at hst
                  injection hst with hst'
                  rw [hst'] at hsf
                  rw [hst2] at hsf
                  cases hsf
                · rw [h] at hsd
                  cases hsd
                · rw [hs] at hsd
                  injection hsd with hsd'
                  rw [hsd'] at hsf
                  rw [hsd2] at hsf
                  cases hsf

/-- Witness for C6 (amended) at a configuration whose batch size is the
unparseable string `"ten"`. -/
theorem C6_config_error_immediate_witness :
    envMissingOrMalformed
      ⟨some "https://api.example", some "\x7b\x7d", some "ten", some "60", some "90"⟩ ∧
    ((fetch_daily_values_for_locations
        ⟨some "https://api.example", some "\x7b\x7d", some "ten", some "60", some "90"⟩
        ⟨[⟨PropsField.dict (some (JVal.jstr "site1")), none⟩]⟩
        dvHttpEx).isOk = false ∧
      fetch_daily_values_for_locations
        ⟨some "https://api.example", some "\x7b\x7d", some "ten", some "60", some "90"⟩
        ⟨[⟨PropsField.dict (some (JVal.jstr "site1")), none⟩]⟩
        dvHttpEx
      = fetch_daily_values_for_locations
        ⟨some "https://api.example", some "\x7b\x7d", some "ten", some "60", some "90"⟩
        ⟨[⟨PropsField.dict (some (JVal.jstr "site1")), none⟩]⟩
        (fun _ => Except.error "network down")) :=
  ⟨by right; right; right; right; right; right
      exact Or.inl ⟨"ten", rfl, by decide⟩,
   C6_config_error_immediate _ _ dvHttpEx (fun _ => Except.error "network down")
     (by right; right; right; right; right; right
         exact Or.inl ⟨"ten", rfl, by decide⟩)⟩

/-- C6 counterexample: with `DV_BATCH_SIZE = "-5"` the configuration does
not supply a positive batch size, yet `fetch_daily_values_for_locations`
raises no error: it succeeds with zero batches and an empty feature list
(the network oracle here always fails, so no request was even made). -/
theorem C6_no_positive_batch_validation_counterexample :
    (fetch_daily_values_for_locations envNegBatch
      ⟨[⟨PropsField.dict (some (JVal.jstr "site1")), none⟩]⟩
      (fun _ => (Except.error "network down" : Except String (DVResponse Nat)))).isOk
      = true ∧
    fetch_daily_values_for_locations envNegBatch
      ⟨[⟨PropsField.dict (some (JVal.jstr "site1")), none⟩]⟩
      (fun _ => (Except.error "network down" : Except String (DVResponse Nat)))
      = Except.ok ⟨[], [], 0, 0, -5, 0⟩ := by
  exact ⟨rfl, rfl⟩

/-! ## Properties of the Joiner (C8, C10) -/

theorem selectColsE_ok_cols {df out : DF} {cs : List String}
    (h : selectColsE df cs = Except.ok out) : out.cols = cs := by
  rw [selectColsE] at h
  cases hm : cs.mapM (colIdx df) with
  | none =>
    rw [hm] at h
    cases h
  | some idxs =>
    rw [hm] at h
    injection h with h'
    rw [← h']

theorem mergeLeft_ok_elim {l r : DF} {lOn rOn : String} {out : DF}
    (h : mergeLeft l r lOn rOn = Except.ok out) :
    ∃ li ri, colIdx l lOn = some li ∧ colIdx r rOn = some ri ∧
      out.cols = (l.cols.map (fun c =>
          if c ∈ l.cols.filter (fun c0 => decide (c0 ∈ r.cols)) then c ++ "_x" else c)
        ++ r.cols.map (fun c =>
          if c ∈ l.cols.filter (fun c0 => decide (c0 ∈ r.cols)) then c ++ "_y" else c)) ∧
      out.rows = l.rows.flatMap (fun lr =>
        let ms := r.rows.filter (fun rr => getCell rr ri == getCell lr li)
        if ms.isEmpty then [lr ++ nullRow r.cols.length]
        else ms.map (fun rr => lr ++ rr)) := by
  rw [mergeLeft] at h
  cases hl : colIdx l lOn with
  | none =>
    rw [hl] at h
    cases h
  | some li =>
    cases hr : colIdx r rOn with
    | none =>
      rw [hl, hr] at h
      cases h
    | some ri =>
      rw [hl, hr] at h
      injection h with h'
      exact ⟨li, ri, rfl, rfl, by rw [← h'], by rw [← h']⟩

/-- With no duplicate keys on the right, the key filter returns nothing
or a single row. -/
theorem filter_key_nil_or_singleton (rows : List (List Cell)) (ri : Nat) (k : Cell)
    (hnodup : (rows.map (fun rr => getCell rr ri)).Nodup) :
    rows.filter (fun rr => getCell rr ri == k) = [] ∨
    ∃ m, rows.filter (fun rr => getCell rr ri == k) = [m] := by
  induction rows with
  | nil =>
    left
    rfl
  | cons a rows ih =>
    simp only [List.map_cons, List.nodup_cons] at hnodup
    obtain ⟨hna, hnd⟩ := hnodup
    rw [List.filter_cons]
    by_cases hpa : (getCell a ri == k) = true
    · rw [if_pos hpa]
      right
      refine ⟨a, ?_⟩
      have hnil : rows.filter (fun rr => getCell rr ri == k) = [] := by
        rw [List.filter_eq_nil_iff]
        intro rr hrr hprr
        have hk : getCell rr ri = k := beq_iff_eq.mp hprr
        have ha : getCell a ri = k := beq_iff_eq.mp hpa
        exact hna (by rw [ha, ← hk]; exact List.mem_map_of_mem _ hrr)
      rw [hnil]
    · rw [if_neg hpa]
      exact ih hnd

theorem flatMap_eq_map_of_singleton {α β : Type} (f : α → List β) (g : α → β) :
    ∀ (l : List α), (∀ x ∈ l, f x = [g x]) → l.flatMap f = l.map g := by
  intro l
  induction l with
  | nil =>
    intro _
    rfl
  | cons a t ih =>
    intro h
    rw [List.flatMap_cons, h a (List.mem_cons_self a t), List.map_cons,
      ih (fun x hx => h x (List.mem_cons_of_mem a hx))]
    rfl

/-- With no duplicate keys on the right, a left merge produces exactly one
output row per left row, in order: the left row extended by its unique
match, or by nulls. -/
theorem mergeLeft_rows_of_nodup {l r : DF} {lOn rOn : String} {out : DF}
    {li ri : Nat}
    (hl : colIdx l lOn = some li) (hr : colIdx r rOn = some ri)
    (hnodup : (r.rows.map (fun rr => getCell rr ri)).Nodup)
    (h : mergeLeft l r lOn rOn = Except.ok out) :
    out.rows = l.rows.map (fun lr =>
      lr ++ ((r.rows.filter (fun rr => getCell rr ri == getCell lr li)).headD
        (nullRow r.cols.length))) := by
  obtain ⟨li', ri', hl', hr', _, hrows⟩ := mergeLeft_ok_elim h
  rw [hl] at hl'
  rw [hr] at hr'
  injection hl' with hli
  injection hr' with hri
  subst hli
  subst hri
  rw [hrows]
  refine flatMap_eq_map_of_singleton _ _ l.rows ?_
  intro lr _
  rcases filter_key_nil_or_singleton r.rows ri (getCell lr li) hnodup with hnil | ⟨m, hm⟩
  · simp only [hnil]
    rfl
  · simp only [hm]
    rfl

/-- C8 (amended): the Joiner keeps every daily-values row, in order; when
the location table's `id` column has no duplicates, it adds no rows
either (one output row per input row, the input row extended by its
matching location row or by nulls); a daily-values row matching no
location id is extended by nulls in every joined location column. With
duplicate location ids the join fans out (see the counterexample). -/
theorem C8_joiner_preserves_rows (dv_df loc_df locF out : DF) (li : Nat)
    (hsel : selectColsE loc_df loc_keep = Except.ok locF)
    (hok : join_daily_values_with_locations dv_df loc_df = Except.ok out)
    (hli : colIdx dv_df "monitoring_location_id" = some li)
    (hnodup : (locF.rows.map (fun rr => getCell rr 0)).Nodup) :
    out.rows.length = dv_df.rows.length ∧
    out.rows = dv_df.rows.map (fun lr =>
      lr ++ ((locF.rows.filter (fun rr => getCell rr 0 == getCell lr li)).headD
        (nullRow 7))) ∧
    (∀ lr ∈ dv_df.rows,
      locF.rows.filter (fun rr => getCell rr 0 == getCell lr li) = [] →
      (lr ++ nullRow 7) ∈ out.rows) := by
  rw [join_daily_values_with_locations, hsel, exceptBind_ok] at hok
  have hcols : locF.cols = loc_keep := selectColsE_ok_cols hsel
  have hid : colIdx locF "id" = some 0 := by
    rw [colIdx, hcols]
    rfl
  have hlen7 : locF.cols.length = 7 := by
    rw [hcols]
    rfl
  have hrows := mergeLeft_rows_of_nodup hli hid hnodup hok
  rw [hlen7] at hrows
  refine ⟨by rw [hrows, List.length_map], hrows, ?_⟩
  intro lr hlr hnil
  rw [hrows]
  have : lr ++ nullRow 7
      = lr ++ ((locF.rows.filter (fun rr => getCell rr 0 == getCell lr li)).headD
          (nullRow 7)) := by
    rw [hnil]
    rfl
  rw [this]
  exact List.mem_map_of_mem _ hlr

/-- C8 counterexample: with a duplicated location id the Joiner returns
two rows for a one-row daily-values table, so the output does not consist
of exactly the input rows. -/
theorem C8_joiner_fanout_counterexample :
    ((join_daily_values_with_locations dvOneRow locDupIds).toOption.map
      (fun o => o.rows.length)) = some 2 ∧ dvOneRow.rows.length = 1 := by
  exact ⟨rfl, rfl⟩

/-- Witness for C8 at a two-row daily-values table (one matching row, one
unmatched row that receives nulls). -/
theorem C8_joiner_preserves_rows_witness :
    ∃ out : DF,
      selectColsE locOneRow loc_keep = Except.ok locOneRow ∧
      join_daily_values_with_locations dvTwoRow locOneRow = Except.ok out ∧
      colIdx dvTwoRow "monitoring_location_id" = some 0 ∧
      (locOneRow.rows.map (fun rr => getCell rr 0)).Nodup ∧
      out.rows.length = dvTwoRow.rows.length := by
  obtain ⟨out, hout⟩ : ∃ out,
      join_daily_values_with_locations dvTwoRow locOneRow = Except.ok out := ⟨_, rfl⟩
  refine ⟨out, rfl, hout, rfl, by decide, ?_⟩
  exact (C8_joiner_preserves_rows dvTwoRow locOneRow locOneRow out 0 rfl hout rfl
    (by decide)).1

/-! ## Column bookkeeping of join and clean (C10) -/

theorem join_ok_elim {dv_df loc_df out : DF}
    (h : join_daily_values_with_locations dv_df loc_df = Except.ok out) :
    ∃ locF, selectColsE loc_df loc_keep = Except.ok locF ∧
      mergeLeft dv_df locF "monitoring_location_id" "id" = Except.ok out := by
  rw [join_daily_values_with_locations] at h
  cases hs : selectColsE loc_df loc_keep with
  | error e =>
    rw [hs] at h
    cases h
  | ok locF =>
    rw [hs, exceptBind_ok] at h
    exact ⟨locF, rfl, h⟩

theorem clean_ok_elim {joined_df param_df stat_df out : DF}
    (h : clean_and_transform_data joined_df param_df stat_df = Except.ok out) :
    ∃ df1 df2 df3 df4 param_small0 df6 df7 stat_small0 df8 df9,
      mapColE joined_df "time" toDatetimeStrCell = Except.ok df1 ∧
      mapColE df1 "last_modified" toDatetimeCell = Except.ok df2 ∧
      mapColE df2 "value" toNumericCell = Except.ok df3 ∧
      dropnaSubsetE df3 "value" = Except.ok df4 ∧
      selectColsE param_df ["id", "parameter_name"] = Except.ok param_small0 ∧
      mergeLeft (dropColIfPresent df4 "qualifier") (dropDuplicates param_small0)
        "parameter_code" "id" = Except.ok df6 ∧
      dropColE df6 "id" = Except.ok df7 ∧
      selectColsE stat_df ["id", "statistic_description"] = Except.ok stat_small0 ∧
      mergeLeft df7 (dropDuplicates stat_small0) "statistic_id" "id" = Except.ok df8 ∧
      dropColE df8 "id" = Except.ok df9 ∧
      selectColsE (renameCol df9 "id_x" "id") final_cols = Except.ok out := by
  rw [clean_and_transform_data] at h
  cases h1 : mapColE joined_df "time" toDatetimeStrCell with
  | error e =>
    rw [h1] at h
    cases h
  | ok df1 =>
  rw [h1] at h
  simp only [exceptBind_ok] at h
  cases h2 : mapColE df1 "last_modified" toDatetimeCell with
  | error e =>
    rw [h2] at h
    cases h
  | ok df2 =>
  rw [h2] at h
  simp only [exceptBind_ok] at h
  cases h3 : mapColE df2 "value" toNumericCell with
  | error e =>
    rw [h3] at h
    cases h
  | ok df3 =>
  rw [h3] at h
  simp only [exceptBind_ok] at h
  cases h4 : dropnaSubsetE df3 "value" with
  | error e =>
    rw [h4] at h
    cases h
  | ok df4 =>
  rw [h4] at h
  simp only [exceptBind_ok] at h
  cases h5 : selectColsE param_df ["id", "parameter_name"] with
  | error e =>
    rw [h5] at h
    cases h
  | ok param_small0 =>
  rw [h5] at h
  simp only [exceptBind_ok] at h
  cases h6 : mergeLeft (dropColIfPresent df4 "qualifier") (dropDuplicates param_small0)
      "parameter_code" "id" with
  | error e =>
    rw [h6] at h
    cases h
  | ok df6 =>
  rw [h6] at h
  simp only [exceptBind_ok] at h
  cases h7 : dropColE df6 "id" with
  | error e =>
    rw [h7] at h
    cases h
  | ok df7 =>
  rw [h7] at h
  simp only [exceptBind_ok] at h
  cases h8 : selectColsE stat_df ["id", "statistic_description"] with
  | error e =>
    rw [h8] at h
    cases h
  | ok stat_small0 =>
  rw [h8] at h
  simp only [exceptBind_ok] at h
  cases h9 : mergeLeft df7 (dropDuplicates stat_small0) "statistic_id" "id" with
  | error e =>
    rw [h9] at h
    cases h
  | ok df8 =>
  rw [h9] at h
  simp only [exceptBind_ok] at h
  cases h10 : dropColE df8 "id" with
  | error e =>
    rw [h10] at h
    cases h
  | ok df9 =>
  rw [h10] at h
  simp only [exceptBind_ok] at h
  exact ⟨df1, df2, df3, df4, param_small0, df6, df7, stat_small0, df8, df9,
    rfl, h2, h3, h4, rfl, h6, h7, rfl, h9, h10, h⟩

theorem clean_ok_cols {joined_df param_df stat_df out : DF}
    (h : clean_and_transform_data joined_df param_df stat_df = Except.ok out) :
    out.cols = final_cols := by
  obtain ⟨_, _, _, _, _, _, _, _, _, _, _, _, _, _, _, _, _, _, _, _, hsel⟩ :=
    clean_ok_elim h
  exact selectColsE_ok_cols hsel

/-- C10: the Joiner's output always carries the location table's `id`
join-key column: with no label overlap it appears as `id`; when the
daily-values table itself has an `id` column the collision suffixes the
two to `id_x` (daily values) and `id_y` (locations) and no plain `id`
column remains; the Cleaner's rename step maps `id_x` back to `id`, and
a successful clean always outputs the `final_cols` schema, whose first
column is `id`. -/
theorem C10_join_id_columns :
    (∀ dv_df loc_df out : DF,
      join_daily_values_with_locations dv_df loc_df = Except.ok out →
      dv_df.cols.filter (fun c => decide (c ∈ loc_keep)) = [] →
      out.cols = dv_df.cols ++ loc_keep ∧ "id" ∈ out.cols) ∧
    (∀ dv_df loc_df out : DF,
      join_daily_values_with_locations dv_df loc_df = Except.ok out →
      "id" ∈ dv_df.cols →
      dv_df.cols.filter (fun c => decide (c ∈ loc_keep)) = ["id"] →
      "id_x" ∈ out.cols ∧ "id_y" ∈ out.cols ∧ "id" ∉ out.cols) ∧
    (∀ df : DF, (renameCol df "id_x" "id").cols
      = df.cols.map (fun c => if c = "id_x" then "id" else c)) ∧
    (∀ joined_df param_df stat_df out : DF,
      clean_and_transform_data joined_df param_df stat_df = Except.ok out →
      out.cols = final_cols ∧ "id" ∈ out.cols) := by
  refine ⟨?_, ?_, fun df => rfl, ?_⟩
  · intro dv_df loc_df out hok hov
    obtain ⟨locF, hsel, hm⟩ := join_ok_elim hok
    obtain ⟨li, ri, _, _, hcols, _⟩ := mergeLeft_ok_elim hm
    have hlc : locF.cols = loc_keep := selectColsE_ok_cols hsel
    rw [hlc, hov] at hcols
    simp only [List.not_mem_nil, if_false, List.map_id'] at hcols
    refine ⟨hcols, ?_⟩
    rw [hcols]
    exact List.mem_append_right _ (by decide)
  · intro dv_df loc_df out hok hid hov
    obtain ⟨locF, hsel, hm⟩ := join_ok_elim hok
    obtain ⟨li, ri, _, _, hcols, _⟩ := mergeLeft_ok_elim hm
    have hlc : locF.cols = loc_keep := selectColsE_ok_cols hsel
    rw [hlc, hov] at hcols
    refine ⟨?_, ?_, ?_⟩
    · rw [hcols]
      refine List.mem_append_left _ (List.mem_map.mpr ⟨"id", hid, ?_⟩)
      rw [if_pos (by decide : "id" ∈ (["id"] : List String))]
      rfl
    · rw [hcols]
      refine List.mem_append_right _ ?_
      decide
    · rw [hcols]
      intro hmem
      rcases List.mem_append.mp hmem with hL | hR
      · obtain ⟨c, hc, hceq⟩ := List.mem_map.mp hL
        by_cases hcid : c = "id"
        · subst hcid
          rw [if_pos (by decide : "id" ∈ (["id"] : List String))] at hceq
          exact absurd hceq (by decide)
        · have hni : c ∉ (["id"] : List String) := by simp [hcid]
          rw [if_neg hni] at hceq
          exact hcid hceq
      · exact absurd hR (by decide)
  · intro joined_df param_df stat_df out h
    have hc := clean_ok_cols h
    refine ⟨hc, ?_⟩
    rw [hc]
    decide

/-! ## Cell-level indexing lemmas -/

theorem getCell_nil (i : Nat) : getCell [] i = Cell.null := by
  cases i <;> rfl

theorem getCell_set_self : ∀ (l : List Cell) (i : Nat) (v : Cell),
    getCell (l.set i v) i = if i < l.length then v else Cell.null
  | [], i, v => by cases i <;> rfl
  | a :: t, 0, v => by
      rw [if_pos (by rw [List.length_cons]; omega : 0 < (a :: t).length)]
      rfl
  | a :: t, i + 1, v => by
      have h1 := getCell_set_self t i v
      have h2 : getCell ((a :: t).set (i + 1) v) (i + 1) = getCell (t.set i v) i := rfl
      rw [h2, h1, List.length_cons]
      by_cases h : i < t.length
      · rw [if_pos h, if_pos (by omega)]
      · rw [if_neg h, if_neg (by omega)]

theorem getCell_set_ne : ∀ (l : List Cell) (i j : Nat) (v : Cell), i ≠ j →
    getCell (l.set i v) j = getCell l j
  | [], i, j, v, _ => by cases j <;> rfl
  | a :: t, 0, 0, v, h => absurd rfl h
  | a :: t, 0, j + 1, v, _ => rfl
  | a :: t, i + 1, 0, v, _ => rfl
  | a :: t, i + 1, j + 1, v, h =>
      getCell_set_ne t i j v (fun he => h (by rw [he]))

theorem getCell_append_left : ∀ (l l' : List Cell) (i : Nat), i < l.length →
    getCell (l ++ l') i = getCell l i
  | [], _, i, h => by cases h
  | a :: t, l', 0, _ => rfl
  | a :: t, l', i + 1, h =>
      getCell_append_left t l' i (by simpa using Nat.lt_of_succ_lt_succ h)

theorem getCell_pos_of_ne_null : ∀ (l : List Cell) (i : Nat),
    getCell l i ≠ Cell.null → i < l.length
  | [], i, h => absurd (getCell_nil i) h
  | _ :: _, 0, _ => Nat.succ_pos _
  | _ :: t, i + 1, h =>
      Nat.succ_lt_succ (getCell_pos_of_ne_null t i h)

theorem getCell_eraseIdx_lt : ∀ (l : List Cell) (i j : Nat), i < j →
    getCell (l.eraseIdx j) i = getCell l i
  | [], i, j, _ => rfl
  | a :: t, i, 0, h => by cases h
  | a :: t, 0, j + 1, _ => rfl
  | a :: t, i + 1, j + 1, h =>
      getCell_eraseIdx_lt t i j (Nat.lt_of_succ_lt_succ h)

/-- The value coercion yields a number or null, never anything else. -/
theorem toNumericCell_num_or_null (c : Cell) :
    (∃ q : ℚ, toNumericCell c = Cell.num q) ∨ toNumericCell c = Cell.null := by
  cases c with
  | null => exact Or.inr rfl
  | num q => exact Or.inl ⟨q, rfl⟩
  | dt t => exact Or.inl ⟨mkRat t 1, rfl⟩
  | str s =>
    rw [toNumericCell]
    cases parseDecimal s with
    | none => exact Or.inr rfl
    | some q => exact Or.inl ⟨q, rfl⟩

/-! ## Step eliminations for the Cleaner chain -/

theorem mapColE_ok_elim {df out : DF} {c : String} {f : Cell → Cell} {i : Nat}
    (hidx : colIdx df c = some i) (h : mapColE df c f = Except.ok out) :
    out.cols = df.cols ∧
    out.rows = df.rows.map (fun r => r.set i (f (getCell r i))) := by
  rw [mapColE, hidx] at h
  injection h with h'
  rw [← h']
  exact ⟨rfl, rfl⟩

theorem dropnaSubsetE_ok_elim {df out : DF} {c : String} {i : Nat}
    (hidx : colIdx df c = some i) (h : dropnaSubsetE df c = Except.ok out) :
    out.cols = df.cols ∧
    out.rows = df.rows.filter (fun r => !(getCell r i == Cell.null)) := by
  rw [dropnaSubsetE, hidx] at h
  injection h with h'
  rw [← h']
  exact ⟨rfl, rfl⟩

theorem dropColE_ok_elim {df out : DF} {c : String} {i : Nat}
    (hidx : colIdx df c = some i) (h : dropColE df c = Except.ok out) :
    out.cols = df.cols.eraseIdx i ∧
    out.rows = df.rows.map (fun r => r.eraseIdx i) := by
  rw [dropColE, hidx] at h
  injection h with h'
  rw [← h']
  exact ⟨rfl, rfl⟩

theorem dropColIfPresent_eq {df : DF} {c : String} {i : Nat}
    (hidx : colIdx df c = some i) :
    dropColIfPresent df c = ⟨df.cols.eraseIdx i, df.rows.map (fun r => r.eraseIdx i)⟩ := by
  rw [dropColIfPresent, hidx]

theorem selectColsE_ok_elim {df out : DF} {cs : List String} {idxs : List Nat}
    (hidx : cs.mapM (colIdx df) = some idxs) (h : selectColsE df cs = Except.ok out) :
    out.cols = cs ∧
    out.rows = df.rows.map (fun r => idxs.map (fun i => getCell r i)) := by
  rw [selectColsE, hidx] at h
  injection h with h'
  rw [← h']
  exact ⟨rfl, rfl⟩

/-- Every output row of a left merge is some left row with an extension
appended. -/
theorem mergeLeft_row_shape {l r : DF} {lOn rOn : String} {out : DF}
    (h : mergeLeft l r lOn rOn = Except.ok out) :
    ∀ row ∈ out.rows, ∃ lr ∈ l.rows, ∃ ext, row = lr ++ ext := by
  obtain ⟨li, ri, _, _, _, hrows⟩ := mergeLeft_ok_elim h
  intro row hrow
  rw [hrows] at hrow
  obtain ⟨lr, hlr, hmem⟩ := List.mem_flatMap.mp hrow
  refine ⟨lr, hlr, ?_⟩
  dsimp only at hmem
  by_cases he : (r.rows.filter (fun rr => getCell rr ri == getCell lr li)).isEmpty
  · rw [if_pos he] at hmem
    rw [List.mem_singleton] at hmem
    exact ⟨nullRow r.cols.length, hmem⟩
  · rw [if_neg he] at hmem
    obtain ⟨rr, _, hrr⟩ := List.mem_map.mp hmem
    exact ⟨rr, hrr.symm⟩

theorem lt_length_eraseIdx {l : List Cell} {i j : Nat} (hij : i < j)
    (hlen : i < l.length) : i < (l.eraseIdx j).length := by
  rw [List.length_eraseIdx l j]
  by_cases h : j < l.length
  · rw [if_pos h]
    omega
  · rw [if_neg h]
    exact hlen

set_option maxHeartbeats 1000000 in
/-- C4 (amended): on any joined table with the pipeline's column layout
(and the two lookup layouts), the Cleaner succeeds, projects to
`final_cols`, and every surviving row's `value` is the numeric coercion
of some input row's `value` — a valid number, never null — so rows whose
`value` fails to coerce are removed. (The time coercion does NOT filter
rows: an unparseable time becomes null but the row is kept, see the
counterexample.) -/
theorem C4_cleaner_value_rows (joined_df param_df stat_df : DF)
    (hj : joined_df.cols = stdJoinedCols)
    (hp : param_df.cols = ["id", "parameter_name"])
    (hs : stat_df.cols = ["id", "statistic_description"]) :
    ∃ out, clean_and_transform_data joined_df param_df stat_df = Except.ok out ∧
      out.cols = final_cols ∧
      (∀ row ∈ out.rows, ∃ r ∈ joined_df.rows,
        toNumericCell (getCell r 5) ≠ Cell.null ∧
        getCell row 8 = toNumericCell (getCell r 5)) ∧
      (∀ row ∈ out.rows, ∃ q : ℚ, getCell row 8 = Cell.num q) := by
  obtain ⟨jc, jr⟩ := joined_df
  obtain ⟨pc, pr⟩ := param_df
  obtain ⟨sc, sr⟩ := stat_df
  dsimp only at hj hp hs
  subst hj
  subst hp
  subst hs
  -- forward evaluation of the cleaning chain, step by step
  obtain ⟨R1, hR1⟩ : ∃ R, R = jr.map (fun r => r.set 4 (toDatetimeStrCell (getCell r 4))) :=
    ⟨_, rfl⟩
  have s1 : mapColE ⟨stdJoinedCols, jr⟩ "time" toDatetimeStrCell
      = Except.ok ⟨stdJoinedCols, R1⟩ := by
    have i1 : colIdx ⟨stdJoinedCols, jr⟩ "time" = some 4 := by
      show List.findIdx? (fun x => x == "time") stdJoinedCols = some 4
      decide
    rw [hR1, mapColE, i1]
  obtain ⟨R2, hR2⟩ : ∃ R, R = R1.map (fun r => r.set 9 (toDatetimeCell (getCell r 9))) :=
    ⟨_, rfl⟩
  have s2 : mapColE ⟨stdJoinedCols, R1⟩ "last_modified" toDatetimeCell
      = Except.ok ⟨stdJoinedCols, R2⟩ := by
    have i2 : colIdx ⟨stdJoinedCols, R1⟩ "last_modified" = some 9 := by
      show List.findIdx? (fun x => x == "last_modified") stdJoinedCols = some 9
      decide
    rw [hR2, mapColE, i2]
  obtain ⟨R3, hR3⟩ : ∃ R, R = R2.map (fun r => r.set 5 (toNumericCell (getCell r 5))) :=
    ⟨_, rfl⟩
  have s3 : mapColE ⟨stdJoinedCols, R2⟩ "value" toNumericCell
      = Except.ok ⟨stdJoinedCols, R3⟩ := by
    have i3 : colIdx ⟨stdJoinedCols, R2⟩ "value" = some 5 := by
      show List.findIdx? (fun x => x == "value") stdJoinedCols = some 5
      decide
    rw [hR3, mapColE, i3]
  obtain ⟨R4, hR4⟩ : ∃ R, R = R3.filter (fun r => !(getCell r 5 == Cell.null)) :=
    ⟨_, rfl⟩
  have s4 : dropnaSubsetE ⟨stdJoinedCols, R3⟩ "value" = Except.ok ⟨stdJoinedCols, R4⟩ := by
    have i4 : colIdx ⟨stdJoinedCols, R3⟩ "value" = some 5 := by
      show List.findIdx? (fun x => x == "value") stdJoinedCols = some 5
      decide
    rw [hR4, dropnaSubsetE, i4]
  obtain ⟨R5, hR5⟩ : ∃ R, R = R4.map (fun r => r.eraseIdx 8) := ⟨_, rfl⟩
  have s5 : dropColIfPresent ⟨stdJoinedCols, R4⟩ "qualifier" = ⟨cleanCols5, R5⟩ := by
    have i5 : colIdx ⟨stdJoinedCols, R4⟩ "qualifier" = some 8 := by
      show List.findIdx? (fun x => x == "qualifier") stdJoinedCols = some 8
      decide
    rw [hR5, dropColIfPresent, i5]
    rfl
  obtain ⟨RP, hRP⟩ : ∃ R, R = pr.map (fun r => [getCell r 0, getCell r 1]) := ⟨_, rfl⟩
  have sP : selectColsE ⟨["id", "parameter_name"], pr⟩ ["id", "parameter_name"]
      = Except.ok ⟨["id", "parameter_name"], RP⟩ := by
    have iP : (["id", "parameter_name"]).mapM (colIdx ⟨["id", "parameter_name"], pr⟩)
        = some [0, 1] := by
      show (["id", "parameter_name"]).mapM
        (fun c => List.findIdx? (fun x => x == c) ["id", "parameter_name"]) = some [0, 1]
      decide
    rw [hRP, selectColsE, iP]
    rfl
  obtain ⟨RD, hRD⟩ : ∃ R, R = pyDedupe RP := ⟨_, rfl⟩
  have sD : dropDuplicates ⟨["id", "parameter_name"], RP⟩
      = ⟨["id", "parameter_name"], RD⟩ := by
    rw [hRD]
    rfl
  obtain ⟨R6, hR6⟩ : ∃ R, R = R5.flatMap (fun lr =>
      let ms := RD.filter (fun rr => getCell rr 0 == getCell lr 2)
      if ms.isEmpty then [lr ++ nullRow 2]
      else ms.map (fun rr => lr ++ rr)) := ⟨_, rfl⟩
  have s6 : mergeLeft ⟨cleanCols5, R5⟩ ⟨["id", "parameter_name"], RD⟩
      "parameter_code" "id" = Except.ok ⟨cleanCols6, R6⟩ := by
    have i6l : colIdx ⟨cleanCols5, R5⟩ "parameter_code" = some 2 := by
      show List.findIdx? (fun x => x == "parameter_code") cleanCols5 = some 2
      decide
    have i6r : colIdx ⟨["id", "parameter_name"], RD⟩ "id" = some 0 := rfl
    rw [hR6, mergeLeft, i6l, i6r]
    rfl
  obtain ⟨R7, hR7⟩ : ∃ R, R = R6.map (fun r => r.eraseIdx 16) := ⟨_, rfl⟩
  have s7 : dropColE ⟨cleanCols6, R6⟩ "id" = Except.ok ⟨cleanCols7, R7⟩ := by
    have i7 : colIdx ⟨cleanCols6, R6⟩ "id" = some 16 := by
      show List.findIdx? (fun x => x == "id") cleanCols6 = some 16
      decide
    rw [hR7, dropColE, i7]
    rfl
  obtain ⟨RS, hRS⟩ : ∃ R, R = sr.map (fun r => [getCell r 0, getCell r 1]) := ⟨_, rfl⟩
  have sS : selectColsE ⟨["id", "statistic_description"], sr⟩ ["id", "statistic_description"]
      = Except.ok ⟨["id", "statistic_description"], RS⟩ := by
    have iS : (["id", "statistic_description"]).mapM
        (colIdx ⟨["id", "statistic_description"], sr⟩) = some [0, 1] := by
      show (["id", "statistic_description"]).mapM
        (fun c => List.findIdx? (fun x => x == c) ["id", "statistic_description"])
        = some [0, 1]
      decide
    rw [hRS, selectColsE, iS]
    rfl
  obtain ⟨RE, hRE⟩ : ∃ R, R = pyDedupe RS := ⟨_, rfl⟩
  have sE : dropDuplicates ⟨["id", "statistic_description"], RS⟩
      = ⟨["id", "statistic_description"], RE⟩ := by
    rw [hRE]
    rfl
  obtain ⟨R8, hR8⟩ : ∃ R, R = R7.flatMap (fun lr =>
      let ms := RE.filter (fun rr => getCell rr 0 == getCell lr 3)
      if ms.isEmpty then [lr ++ nullRow 2]
      else ms.map (fun rr => lr ++ rr)) := ⟨_, rfl⟩
  have s8 : mergeLeft ⟨cleanCols7, R7⟩ ⟨["id", "statistic_description"], RE⟩
      "statistic_id" "id" = Except.ok ⟨cleanCols8, R8⟩ := by
    have i8l : colIdx ⟨cleanCols7, R7⟩ "statistic_id" = some 3 := by
      show List.findIdx? (fun x => x == "statistic_id") cleanCols7 = some 3
      decide
    have i8r : colIdx ⟨["id", "statistic_description"], RE⟩ "id" = some 0 := rfl
    rw [hR8, mergeLeft, i8l, i8r]
    rfl
  obtain ⟨R9, hR9⟩ : ∃ R, R = R8.map (fun r => r.eraseIdx 17) := ⟨_, rfl⟩
  have s9 : dropColE ⟨cleanCols8, R8⟩ "id" = Except.ok ⟨cleanCols9, R9⟩ := by
    have i9 : colIdx ⟨cleanCols8, R8⟩ "id" = some 17 := by
      show List.findIdx? (fun x => x == "id") cleanCols8 = some 17
      decide
    rw [hR9, dropColE, i9]
    rfl
  have sR : renameCol ⟨cleanCols9, R9⟩ "id_x" "id" = ⟨cleanCols10, R9⟩ := by
    rw [renameCol]
    rfl
  obtain ⟨RF, hRF⟩ : ∃ R, R = R9.map (fun r =>
      [getCell r 0, getCell r 1, getCell r 11, getCell r 15, getCell r 4,
       getCell r 8, getCell r 2, getCell r 16, getCell r 5, getCell r 6,
       getCell r 3, getCell r 17, getCell r 7, getCell r 10, getCell r 13,
       getCell r 14]) := ⟨_, rfl⟩
  have s10 : selectColsE ⟨cleanCols10, R9⟩ final_cols
      = Except.ok ⟨final_cols, RF⟩ := by
    have i10 : final_cols.mapM (colIdx ⟨cleanCols10, R9⟩)
        = some [0, 1, 11, 15, 4, 8, 2, 16, 5, 6, 3, 17, 7, 10, 13, 14] := by
      show final_cols.mapM (fun c => List.findIdx? (fun x => x == c) cleanCols10)
          = some [0, 1, 11, 15, 4, 8, 2, 16, 5, 6, 3, 17, 7, 10, 13, 14]
      decide
    rw [hRF, selectColsE, i10]
    rfl
  have hok : clean_and_transform_data ⟨stdJoinedCols, jr⟩ ⟨["id", "parameter_name"], pr⟩
      ⟨["id", "statistic_description"], sr⟩ = Except.ok ⟨final_cols, RF⟩ := by
    rw [clean_and_transform_data, s1]
    simp only [exceptBind_ok]
    rw [s2]
    simp only [exceptBind_ok]
    rw [s3]
    simp only [exceptBind_ok]
    rw [s4]
    simp only [exceptBind_ok]
    rw [sP]
    simp only [exceptBind_ok]
    rw [s5, sD, s6]
    simp only [exceptBind_ok]
    rw [s7]
    simp only [exceptBind_ok]
    rw [sS]
    simp only [exceptBind_ok]
    rw [sE, s8]
    simp only [exceptBind_ok]
    rw [s9]
    simp only [exceptBind_ok]
    rw [sR, s10]
  -- the value-provenance invariant, carried through the chain
  have inv4 : ∀ row ∈ R4, ∃ r ∈ jr,
      toNumericCell (getCell r 5) ≠ Cell.null ∧
      getCell row 5 = toNumericCell (getCell r 5) ∧ 5 < row.length := by
    intro row hrow
    rw [hR4] at hrow
    obtain ⟨hmem3, hpred⟩ := List.mem_filter.mp hrow
    rw [hR3] at hmem3
    obtain ⟨row2, hrow2, heq⟩ := List.mem_map.mp hmem3
    rw [hR2] at hrow2
    obtain ⟨row1, hrow1, heq2⟩ := List.mem_map.mp hrow2
    rw [hR1] at hrow1
    obtain ⟨r, hr, heq3⟩ := List.mem_map.mp hrow1
    have hne : getCell row 5 ≠ Cell.null := by
      intro hn
      rw [hn] at hpred
      simp at hpred
    have hv2 : getCell row2 5 = getCell r 5 := by
      rw [← heq2, ← heq3, getCell_set_ne _ 9 5 _ (by omega),
        getCell_set_ne _ 4 5 _ (by omega)]
    by_cases hl : 5 < row2.length
    · refine ⟨r, hr, ?_, ?_, ?_⟩
      · rw [← hv2]
        intro hnull
        apply hne
        rw [← heq, getCell_set_self, if_pos hl, hv2]
        rw [hv2] at hnull
        exact hnull
      · rw [← heq, getCell_set_self, if_pos hl, hv2]
      · rw [← heq, List.length_set]
        exact hl
    · exfalso
      apply hne
      rw [← heq, getCell_set_self, if_neg hl]
  have inv5 : ∀ row ∈ R5, ∃ r ∈ jr,
      toNumericCell (getCell r 5) ≠ Cell.null ∧
      getCell row 5 = toNumericCell (getCell r 5) ∧ 5 < row.length := by
    intro row hrow
    rw [hR5] at hrow
    obtain ⟨row4, hrow4, heq⟩ := List.mem_map.mp hrow
    obtain ⟨r, hr, hne, hval, hlen⟩ := inv4 row4 hrow4
    exact ⟨r, hr, hne, by rw [← heq, getCell_eraseIdx_lt _ 5 8 (by omega), hval],
      by rw [← heq]; exact lt_length_eraseIdx (by omega) hlen⟩
  have inv6 : ∀ row ∈ R6, ∃ r ∈ jr,
      toNumericCell (getCell r 5) ≠ Cell.null ∧
      getCell row 5 = toNumericCell (getCell r 5) ∧ 5 < row.length := by
    intro row hrow
    rw [hR6] at hrow
    obtain ⟨lr, hlr, hm⟩ := List.mem_flatMap.mp hrow
    obtain ⟨r, hr, hne, hval, hlen⟩ := inv5 lr hlr
    dsimp only at hm
    have hext : ∃ ext, row = lr ++ ext := by
      by_cases he : (RD.filter (fun rr => getCell rr 0 == getCell lr 2)).isEmpty
      · rw [if_pos he, List.mem_singleton] at hm
        exact ⟨_, hm⟩
      · rw [if_neg he] at hm
        obtain ⟨rr, _, hrr⟩ := List.mem_map.mp hm
        exact ⟨rr, hrr.symm⟩
    obtain ⟨ext, heq⟩ := hext
    refine ⟨r, hr, hne, ?_, ?_⟩
    · rw [heq, getCell_append_left _ _ 5 hlen, hval]
    · rw [heq, List.length_append]
      omega
  have inv7 : ∀ row ∈ R7, ∃ r ∈ jr,
      toNumericCell (getCell r 5) ≠ Cell.null ∧
      getCell row 5 = toNumericCell (getCell r 5) ∧ 5 < row.length := by
    intro row hrow
    rw [hR7] at hrow
    obtain ⟨row6, hrow6, heq⟩ := List.mem_map.mp hrow
    obtain ⟨r, hr, hne, hval, hlen⟩ := inv6 row6 hrow6
    exact ⟨r, hr, hne, by rw [← heq, getCell_eraseIdx_lt _ 5 16 (by omega), hval],
      by rw [← heq]; exact lt_length_eraseIdx (by omega) hlen⟩
  have inv8 : ∀ row ∈ R8, ∃ r ∈ jr,
      toNumericCell (getCell r 5) ≠ Cell.null ∧
      getCell row 5 = toNumericCell (getCell r 5) ∧ 5 < row.length := by
    intro row hrow
    rw [hR8] at hrow
    obtain ⟨lr, hlr, hm⟩ := List.mem_flatMap.mp hrow
    obtain ⟨r, hr, hne, hval, hlen⟩ := inv7 lr hlr
    dsimp only at hm
    have hext : ∃ ext, row = lr ++ ext := by
      by_cases he : (RE.filter (fun rr => getCell rr 0 == getCell lr 3)).isEmpty
      · rw [if_pos he, List.mem_singleton] at hm
        exact ⟨_, hm⟩
      · rw [if_neg he] at hm
        obtain ⟨rr, _, hrr⟩ := List.mem_map.mp hm
        exact ⟨rr, hrr.symm⟩
    obtain ⟨ext, heq⟩ := hext
    refine ⟨r, hr, hne, ?_, ?_⟩
    · rw [heq, getCell_append_left _ _ 5 hlen, hval]
    · rw [heq, List.length_append]
      omega
  have inv9 : ∀ row ∈ R9, ∃ r ∈ jr,
      toNumericCell (getCell r 5) ≠ Cell.null ∧
      getCell row 5 = toNumericCell (getCell r 5) ∧ 5 < row.length := by
    intro row hrow
    rw [hR9] at hrow
    obtain ⟨row8, hrow8, heq⟩ := List.mem_map.mp hrow
    obtain ⟨r, hr, hne, hval, hlen⟩ := inv8 row8 hrow8
    exact ⟨r, hr, hne, by rw [← heq, getCell_eraseIdx_lt _ 5 17 (by omega), hval],
      by rw [← heq]; exact lt_length_eraseIdx (by omega) hlen⟩
  refine ⟨⟨final_cols, RF⟩, hok, rfl, ?_, ?_⟩
  · intro row hrow
    rw [show (DF.mk final_cols RF).rows = RF from rfl, hRF] at hrow
    obtain ⟨r9, hr9, heq⟩ := List.mem_map.mp hrow
    obtain ⟨r, hr, hne, hval, _⟩ := inv9 r9 hr9
    refine ⟨r, hr, hne, ?_⟩
    rw [← heq]
    show getCell r9 5 = toNumericCell (getCell r 5)
    exact hval
  · intro row hrow
    rw [show (DF.mk final_cols RF).rows = RF from rfl, hRF] at hrow
    obtain ⟨r9, hr9, heq⟩ := List.mem_map.mp hrow
    obtain ⟨r, hr, hne, hval, _⟩ := inv9 r9 hr9
    rcases toNumericCell_num_or_null (getCell r 5) with ⟨q, hq⟩ | hnull
    · refine ⟨q, ?_⟩
      rw [← heq]
      show getCell r9 5 = Cell.num q
      rw [hval, hq]
    · exact absurd hnull hne

/-- Witness for C4 at `joinedEx`: the `"not_a_number"` row is removed,
the `"3.5"` row survives with the numeric value 7/2. -/
theorem C4_cleaner_value_rows_witness :
    joinedEx.cols = stdJoinedCols ∧
    paramEx.cols = ["id", "parameter_name"] ∧
    statEx.cols = ["id", "statistic_description"] ∧
    (∃ out, clean_and_transform_data joinedEx paramEx statEx = Except.ok out ∧
      out.cols = final_cols ∧
      (∀ row ∈ out.rows, ∃ r ∈ joinedEx.rows,
        toNumericCell (getCell r 5) ≠ Cell.null ∧
        getCell row 8 = toNumericCell (getCell r 5)) ∧
      (∀ row ∈ out.rows, ∃ q : ℚ, getCell row 8 = Cell.num q)) ∧
    clean_and_transform_data joinedEx paramEx statEx = Except.ok cleanedEx ∧
    getCell (cleanedEx.rows.getD 0 []) 8 = Cell.num (mkRat 7 2) ∧
    cleanedEx.rows.length = 1 :=
  ⟨rfl, rfl, rfl, C4_cleaner_value_rows joinedEx paramEx statEx rfl rfl rfl,
   by decide, by decide, rfl⟩

/-- C4 counterexample: a row whose `time` fails to parse is NOT removed —
it survives the clean with a null `time` (and its value 7/2), so "every
surviving row has a `time` that is a valid timestamp" is false. -/
theorem C4_time_not_validated_counterexample :
    (clean_and_transform_data joinedBadTime paramEx statEx).toOption.map
      (fun o => (o.rows.length, getCell (o.rows.getD 0 []) 4, getCell (o.rows.getD 0 []) 8))
      = some (1, Cell.null, Cell.num (mkRat 7 2)) := by
  decide

/-- C5 (amended): the Cleaner is NOT idempotent. Re-running it on its own
output always fails: the output has plain `id` and `parameter_name`
columns, so the parameter-lookup merge suffixes both collisions to
`_x`/`_y`, and the subsequent `drop(columns=["id"])` raises a KeyError. -/
theorem C5_cleaner_not_idempotent (joined_df param_df stat_df out : DF)
    (hok : clean_and_transform_data joined_df param_df stat_df = Except.ok out)
    (hp : param_df.cols = ["id", "parameter_name"]) :
    (clean_and_transform_data out param_df stat_df).isOk = false := by
  have hcols := clean_ok_cols hok
  obtain ⟨ocols, orows⟩ := out
  obtain ⟨pcols, prows⟩ := param_df
  dsimp only at hcols hp
  subst hcols
  subst hp
  obtain ⟨R1, hR1⟩ : ∃ R, R = orows.map (fun r => r.set 4 (toDatetimeStrCell (getCell r 4))) :=
    ⟨_, rfl⟩
  have s1 : mapColE ⟨final_cols, orows⟩ "time" toDatetimeStrCell
      = Except.ok ⟨final_cols, R1⟩ := by
    have i1 : colIdx ⟨final_cols, orows⟩ "time" = some 4 := by
      show List.findIdx? (fun x => x == "time") final_cols = some 4
      decide
    rw [hR1, mapColE, i1]
  obtain ⟨R2, hR2⟩ : ∃ R, R = R1.map (fun r => r.set 5 (toDatetimeCell (getCell r 5))) :=
    ⟨_, rfl⟩
  have s2 : mapColE ⟨final_cols, R1⟩ "last_modified" toDatetimeCell
      = Except.ok ⟨final_cols, R2⟩ := by
    have i2 : colIdx ⟨final_cols, R1⟩ "last_modified" = some 5 := by
      show List.findIdx? (fun x => x == "last_modified") final_cols = some 5
      decide
    rw [hR2, mapColE, i2]
  obtain ⟨R3, hR3⟩ : ∃ R, R = R2.map (fun r => r.set 8 (toNumericCell (getCell r 8))) :=
    ⟨_, rfl⟩
  have s3 : mapColE ⟨final_cols, R2⟩ "value" toNumericCell
      = Except.ok ⟨final_cols, R3⟩ := by
    have i3 : colIdx ⟨final_cols, R2⟩ "value" = some 8 := by
      show List.findIdx? (fun x => x == "value") final_cols = some 8
      decide
    rw [hR3, mapColE, i3]
  obtain ⟨R4, hR4⟩ : ∃ R, R = R3.filter (fun r => !(getCell r 8 == Cell.null)) :=
    ⟨_, rfl⟩
  have s4 : dropnaSubsetE ⟨final_cols, R3⟩ "value" = Except.ok ⟨final_cols, R4⟩ := by
    have i4 : colIdx ⟨final_cols, R3⟩ "value" = some 8 := by
      show List.findIdx? (fun x => x == "value") final_cols = some 8
      decide
    rw [hR4, dropnaSubsetE, i4]
  have s5 : dropColIfPresent ⟨final_cols, R4⟩ "qualifier" = ⟨final_cols, R4⟩ := by
    have i5 : colIdx ⟨final_cols, R4⟩ "qualifier" = none := by
      show List.findIdx? (fun x => x == "qualifier") final_cols = none
      decide
    rw [dropColIfPresent, i5]
  obtain ⟨RP, hRP⟩ : ∃ R, R = prows.map (fun r => [getCell r 0, getCell r 1]) := ⟨_, rfl⟩
  have sP : selectColsE ⟨["id", "parameter_name"], prows⟩ ["id", "parameter_name"]
      = Except.ok ⟨["id", "parameter_name"], RP⟩ := by
    have iP : (["id", "parameter_name"]).mapM (colIdx ⟨["id", "parameter_name"], prows⟩)
        = some [0, 1] := by
      show (["id", "parameter_name"]).mapM
        (fun c => List.findIdx? (fun x => x == c) ["id", "parameter_name"]) = some [0, 1]
      decide
    rw [hRP, selectColsE, iP]
    rfl
  obtain ⟨RD, hRD⟩ : ∃ R, R = pyDedupe RP := ⟨_, rfl⟩
  have sD : dropDuplicates ⟨["id", "parameter_name"], RP⟩
      = ⟨["id", "parameter_name"], RD⟩ := by
    rw [hRD]
    rfl
  obtain ⟨R6, hR6⟩ : ∃ R, R = R4.flatMap (fun lr =>
      let ms := RD.filter (fun rr => getCell rr 0 == getCell lr 6)
      if ms.isEmpty then [lr ++ nullRow 2]
      else ms.map (fun rr => lr ++ rr)) := ⟨_, rfl⟩
  have s6 : mergeLeft ⟨final_cols, R4⟩ ⟨["id", "parameter_name"], RD⟩
      "parameter_code" "id"
      = Except.ok ⟨["id_x", "monitoring_location_id", "monitoring_location_name",
          "site_type", "time", "last_modified", "parameter_code",
          "parameter_name_x", "value", "unit_of_measure", "statistic_id",
          "statistic_description", "approval_status", "agency_name",
          "state_name", "county_name", "id_y", "parameter_name_y"], R6⟩ := by
    have i6l : colIdx ⟨final_cols, R4⟩ "parameter_code" = some 6 := by
      show List.findIdx? (fun x => x == "parameter_code") final_cols = some 6
      decide
    have i6r : colIdx ⟨["id", "parameter_name"], RD⟩ "id" = some 0 := rfl
    rw [hR6, mergeLeft, i6l, i6r]
    rfl
  have s7 : dropColE ⟨["id_x", "monitoring_location_id", "monitoring_location_name",
      "site_type", "time", "last_modified", "parameter_code",
      "parameter_name_x", "value", "unit_of_measure", "statistic_id",
      "statistic_description", "approval_status", "agency_name",
      "state_name", "county_name", "id_y", "parameter_name_y"], R6⟩ "id"
      = Except.error "KeyError: id" := by
    have i7 : colIdx ⟨["id_x", "monitoring_location_id", "monitoring_location_name",
        "site_type", "time", "last_modified", "parameter_code",
        "parameter_name_x", "value", "unit_of_measure", "statistic_id",
        "statistic_description", "approval_status", "agency_name",
        "state_name", "county_name", "id_y", "parameter_name_y"], R6⟩ "id" = none := by
      show List.findIdx? (fun x => x == "id")
        ["id_x", "monitoring_location_id", "monitoring_location_name",
         "site_type", "time", "last_modified", "parameter_code",
         "parameter_name_x", "value", "unit_of_measure", "statistic_id",
         "statistic_description", "approval_status", "agency_name",
         "state_name", "county_name", "id_y", "parameter_name_y"] = none
      decide
    rw [dropColE, i7]
    rfl
  rw [clean_and_transform_data, s1]
  simp only [exceptBind_ok]
  rw [s2]
  simp only [exceptBind_ok]
  rw [s3]
  simp only [exceptBind_ok]
  rw [s4]
  simp only [exceptBind_ok]
  rw [sP]
  simp only [exceptBind_ok]
  rw [s5, sD, s6]
  simp only [exceptBind_ok]
  rw [s7]
  rfl

/-- Witness for C5: the Cleaner succeeds on `joinedEx` and fails on its
own output. -/
theorem C5_cleaner_not_idempotent_witness :
    clean_and_transform_data joinedEx paramEx statEx = Except.ok cleanedEx ∧
    paramEx.cols = ["id", "parameter_name"] ∧
    (clean_and_transform_data cleanedEx paramEx statEx).isOk = false :=
  ⟨by decide, rfl,
   C5_cleaner_not_idempotent joinedEx paramEx statEx cleanedEx (by decide) rfl⟩

/-- C5 counterexample: the first clean of `joinedEx` succeeds, but
cleaning the output again raises instead of reproducing it — so running
the Cleaner twice does not yield the same result as running it once. -/
theorem C5_not_idempotent_counterexample :
    clean_and_transform_data joinedEx paramEx statEx = Except.ok cleanedEx ∧
    (clean_and_transform_data cleanedEx paramEx statEx).isOk = false := by
  constructor
  · decide
  · decide

set_option maxHeartbeats 1000000 in
/-- C7 (amended): the lookup tables are de-duplicated by the whole
selected row (the (code, name) pair), not by the code column; the two
left joins leave the row count unchanged only when, after that pair-wise
de-duplication, the lookup code columns are duplicate-free. Under that
extra hypothesis the Cleaner's output row count equals the number of
rows surviving the `value` drop. -/
theorem C7_lookup_merge_row_count (joined_df param_df stat_df : DF)
    (hj : joined_df.cols = stdJoinedCols)
    (hp : param_df.cols = ["id", "parameter_name"])
    (hs : stat_df.cols = ["id", "statistic_description"])
    (hlen : ∀ r ∈ joined_df.rows, r.length = 17)
    (hpk : (param_df.rows.map (fun r => getCell r 0)).Nodup)
    (hsk : (stat_df.rows.map (fun r => getCell r 0)).Nodup) :
    ∃ out, clean_and_transform_data joined_df param_df stat_df = Except.ok out ∧
      out.rows.length =
        (joined_df.rows.filter
          (fun r => !(toNumericCell (getCell r 5) == Cell.null))).length := by
  obtain ⟨jc, jr⟩ := joined_df
  obtain ⟨pc, pr⟩ := param_df
  obtain ⟨sc, sr⟩ := stat_df
  dsimp only at hj hp hs hlen hpk hsk
  subst hj
  subst hp
  subst hs
  obtain ⟨R1, hR1⟩ : ∃ R, R = jr.map (fun r => r.set 4 (toDatetimeStrCell (getCell r 4))) :=
    ⟨_, rfl⟩
  have s1 : mapColE ⟨stdJoinedCols, jr⟩ "time" toDatetimeStrCell
      = Except.ok ⟨stdJoinedCols, R1⟩ := by
    have i1 : colIdx ⟨stdJoinedCols, jr⟩ "time" = some 4 := by
      show List.findIdx? (fun x => x == "time") stdJoinedCols = some 4
      decide
    rw [hR1, mapColE, i1]
  obtain ⟨R2, hR2⟩ : ∃ R, R = R1.map (fun r => r.set 9 (toDatetimeCell (getCell r 9))) :=
    ⟨_, rfl⟩
  have s2 : mapColE ⟨stdJoinedCols, R1⟩ "last_modified" toDatetimeCell
      = Except.ok ⟨stdJoinedCols, R2⟩ := by
    have i2 : colIdx ⟨stdJoinedCols, R1⟩ "last_modified" = some 9 := by
      show List.findIdx? (fun x => x == "last_modified") stdJoinedCols = some 9
      decide
    rw [hR2, mapColE, i2]
  obtain ⟨R3, hR3⟩ : ∃ R, R = R2.map (fun r => r.set 5 (toNumericCell (getCell r 5))) :=
    ⟨_, rfl⟩
  have s3 : mapColE ⟨stdJoinedCols, R2⟩ "value" toNumericCell
      = Except.ok ⟨stdJoinedCols, R3⟩ := by
    have i3 : colIdx ⟨stdJoinedCols, R2⟩ "value" = some 5 := by
      show List.findIdx? (fun x => x == "value") stdJoinedCols = some 5
      decide
    rw [hR3, mapColE, i3]
  obtain ⟨R4, hR4⟩ : ∃ R, R = R3.filter (fun r => !(getCell r 5 == Cell.null)) :=
    ⟨_, rfl⟩
  have s4 : dropnaSubsetE ⟨stdJoinedCols, R3⟩ "value" = Except.ok ⟨stdJoinedCols, R4⟩ := by
    have i4 : colIdx ⟨stdJoinedCols, R3⟩ "value" = some 5 := by
      show List.findIdx? (fun x => x == "value") stdJoinedCols = some 5
      decide
    rw [hR4, dropnaSubsetE, i4]
  obtain ⟨R5, hR5⟩ : ∃ R, R = R4.map (fun r => r.eraseIdx 8) := ⟨_, rfl⟩
  have s5 : dropColIfPresent ⟨stdJoinedCols, R4⟩ "qualifier" = ⟨cleanCols5, R5⟩ := by
    have i5 : colIdx ⟨stdJoinedCols, R4⟩ "qualifier" = some 8 := by
      show List.findIdx? (fun x => x == "qualifier") stdJoinedCols = some 8
      decide
    rw [hR5, dropColIfPresent, i5]
    rfl
  obtain ⟨RP, hRP⟩ : ∃ R, R = pr.map (fun r => [getCell r 0, getCell r 1]) := ⟨_, rfl⟩
  have sP : selectColsE ⟨["id", "parameter_name"], pr⟩ ["id", "parameter_name"]
      = Except.ok ⟨["id", "parameter_name"], RP⟩ := by
    have iP : (["id", "parameter_name"]).mapM (colIdx ⟨["id", "parameter_name"], pr⟩)
        = some [0, 1] := by
      show (["id", "parameter_name"]).mapM
        (fun c => List.findIdx? (fun x => x == c) ["id", "parameter_name"]) = some [0, 1]
      decide
    rw [hRP, selectColsE, iP]
    rfl
  obtain ⟨RD, hRD⟩ : ∃ R, R = pyDedupe RP := ⟨_, rfl⟩
  have sD : dropDuplicates ⟨["id", "parameter_name"], RP⟩
      = ⟨["id", "parameter_name"], RD⟩ := by
    rw [hRD]
    rfl
  have i6l : colIdx ⟨cleanCols5, R5⟩ "parameter_code" = some 2 := by
    show List.findIdx? (fun x => x == "parameter_code") cleanCols5 = some 2
    decide
  have i6r : colIdx ⟨["id", "parameter_name"], RD⟩ "id" = some 0 := rfl
  obtain ⟨R6, hR6⟩ : ∃ R, R = R5.flatMap (fun lr =>
      let ms := RD.filter (fun rr => getCell rr 0 == getCell lr 2)
      if ms.isEmpty then [lr ++ nullRow 2]
      else ms.map (fun rr => lr ++ rr)) := ⟨_, rfl⟩
  have s6 : mergeLeft ⟨cleanCols5, R5⟩ ⟨["id", "parameter_name"], RD⟩
      "parameter_code" "id" = Except.ok ⟨cleanCols6, R6⟩ := by
    rw [hR6, mergeLeft, i6l, i6r]
    rfl
  obtain ⟨R7, hR7⟩ : ∃ R, R = R6.map (fun r => r.eraseIdx 16) := ⟨_, rfl⟩
  have s7 : dropColE ⟨cleanCols6, R6⟩ "id" = Except.ok ⟨cleanCols7, R7⟩ := by
    have i7 : colIdx ⟨cleanCols6, R6⟩ "id" = some 16 := by
      show List.findIdx? (fun x => x == "id") cleanCols6 = some 16
      decide
    rw [hR7, dropColE, i7]
    rfl
  obtain ⟨RS, hRS⟩ : ∃ R, R = sr.map (fun r => [getCell r 0, getCell r 1]) := ⟨_, rfl⟩
  have sS : selectColsE ⟨["id", "statistic_description"], sr⟩ ["id", "statistic_description"]
      = Except.ok ⟨["id", "statistic_description"], RS⟩ := by
    have iS : (["id", "statistic_description"]).mapM
        (colIdx ⟨["id", "statistic_description"], sr⟩) = some [0, 1] := by
      show (["id", "statistic_description"]).mapM
        (fun c => List.findIdx? (fun x => x == c) ["id", "statistic_description"])
        = some [0, 1]
      decide
    rw [hRS, selectColsE, iS]
    rfl
  obtain ⟨RE, hRE⟩ : ∃ R, R = pyDedupe RS := ⟨_, rfl⟩
  have sE : dropDuplicates ⟨["id", "statistic_description"], RS⟩
      = ⟨["id", "statistic_description"], RE⟩ := by
    rw [hRE]
    rfl
  have i8l : colIdx ⟨cleanCols7, R7⟩ "statistic_id" = some 3 := by
    show List.findIdx? (fun x => x == "statistic_id") cleanCols7 = some 3
    decide
  have i8r : colIdx ⟨["id", "statistic_description"], RE⟩ "id" = some 0 := rfl
  obtain ⟨R8, hR8⟩ : ∃ R, R = R7.flatMap (fun lr =>
      let ms := RE.filter (fun rr => getCell rr 0 == getCell lr 3)
      if ms.isEmpty then [lr ++ nullRow 2]
      else ms.map (fun rr => lr ++ rr)) := ⟨_, rfl⟩
  have s8 : mergeLeft ⟨cleanCols7, R7⟩ ⟨["id", "statistic_description"], RE⟩
      "statistic_id" "id" = Except.ok ⟨cleanCols8, R8⟩ := by
    rw [hR8, mergeLeft, i8l, i8r]
    rfl
  obtain ⟨R9, hR9⟩ : ∃ R, R = R8.map (fun r => r.eraseIdx 17) := ⟨_, rfl⟩
  have s9 : dropColE ⟨cleanCols8, R8⟩ "id" = Except.ok ⟨cleanCols9, R9⟩ := by
    have i9 : colIdx ⟨cleanCols8, R8⟩ "id" = some 17 := by
      show List.findIdx? (fun x => x == "id") cleanCols8 = some 17
      decide
    rw [hR9, dropColE, i9]
    rfl
  have sR : renameCol ⟨cleanCols9, R9⟩ "id_x" "id" = ⟨cleanCols10, R9⟩ := by
    rw [renameCol]
    rfl
  obtain ⟨RF, hRF⟩ : ∃ R, R = R9.map (fun r =>
      [getCell r 0, getCell r 1, getCell r 11, getCell r 15, getCell r 4,
       getCell r 8, getCell r 2, getCell r 16, getCell r 5, getCell r 6,
       getCell r 3, getCell r 17, getCell r 7, getCell r 10, getCell r 13,
       getCell r 14]) := ⟨_, rfl⟩
  have s10 : selectColsE ⟨cleanCols10, R9⟩ final_cols
      = Except.ok ⟨final_cols, RF⟩ := by
    have i10 : final_cols.mapM (colIdx ⟨cleanCols10, R9⟩)
        = some [0, 1, 11, 15, 4, 8, 2, 16, 5, 6, 3, 17, 7, 10, 13, 14] := by
      show final_cols.mapM (fun c => List.findIdx? (fun x => x == c) cleanCols10)
          = some [0, 1, 11, 15, 4, 8, 2, 16, 5, 6, 3, 17, 7, 10, 13, 14]
      decide
    rw [hRF, selectColsE, i10]
    rfl
  have hok : clean_and_transform_data ⟨stdJoinedCols, jr⟩ ⟨["id", "parameter_name"], pr⟩
      ⟨["id", "statistic_description"], sr⟩ = Except.ok ⟨final_cols, RF⟩ := by
    rw [clean_and_transform_data, s1]
    simp only [exceptBind_ok]
    rw [s2]
    simp only [exceptBind_ok]
    rw [s3]
    simp only [exceptBind_ok]
    rw [s4]
    simp only [exceptBind_ok]
    rw [sP]
    simp only [exceptBind_ok]
    rw [s5, sD, s6]
    simp only [exceptBind_ok]
    rw [s7]
    simp only [exceptBind_ok]
    rw [sS]
    simp only [exceptBind_ok]
    rw [sE, s8]
    simp only [exceptBind_ok]
    rw [s9]
    simp only [exceptBind_ok]
    rw [sR, s10]
  -- the key columns of the de-duplicated lookups are duplicate-free
  have hkeyRP : RP.map (fun rr => getCell rr 0) = pr.map (fun r => getCell r 0) := by
    rw [hRP, List.map_map]
    rfl
  have hnodupRD : (RD.map (fun rr => getCell rr 0)).Nodup := by
    apply List.Nodup.sublist (List.Sublist.map _ (hRD ▸ pyDedupe_sublist RP))
    rw [hkeyRP]
    exact hpk
  have hkeyRS : RS.map (fun rr => getCell rr 0) = sr.map (fun r => getCell r 0) := by
    rw [hRS, List.map_map]
    rfl
  have hnodupRE : (RE.map (fun rr => getCell rr 0)).Nodup := by
    apply List.Nodup.sublist (List.Sublist.map _ (hRE ▸ pyDedupe_sublist RS))
    rw [hkeyRS]
    exact hsk
  -- singleton-match merges: the joins are maps, so lengths are preserved
  have hrows6 := mergeLeft_rows_of_nodup i6l i6r hnodupRD s6
  dsimp only at hrows6
  have hrows8 := mergeLeft_rows_of_nodup i8l i8r hnodupRE s8
  dsimp only at hrows8
  -- count the rows surviving the value drop
  have hR3c : R3 = jr.map ((fun r => r.set 5 (toNumericCell (getCell r 5))) ∘
      ((fun r => r.set 9 (toDatetimeCell (getCell r 9))) ∘
       (fun r => r.set 4 (toDatetimeStrCell (getCell r 4))))) := by
    rw [hR3, hR2, hR1, List.map_map, List.map_map]
    rfl
  have l3 : R4.length
      = (jr.filter (fun r => !(toNumericCell (getCell r 5) == Cell.null))).length := by
    rw [hR4, hR3c, List.filter_map, List.length_map]
    apply congrArg List.length
    apply List.filter_congr
    intro r hr
    have h17 := hlen r hr
    simp only [Function.comp]
    rw [getCell_set_self,
      if_pos (by rw [List.length_set, List.length_set, h17]; omega),
      getCell_set_ne _ 9 5 _ (by omega), getCell_set_ne _ 4 5 _ (by omega)]
  refine ⟨⟨final_cols, RF⟩, hok, ?_⟩
  show RF.length = _
  rw [hRF, List.length_map, hR9, List.length_map, hrows8, List.length_map,
    hR7, List.length_map, hrows6, List.length_map, hR5, List.length_map, l3]

/-- Witness for C7 at `joinedEx` with duplicate-free lookups: one row
survives the value drop and the output has exactly one row. -/
theorem C7_lookup_merge_row_count_witness :
    ∃ out, clean_and_transform_data joinedEx paramEx statEx = Except.ok out ∧
      out.rows.length =
        (joinedEx.rows.filter
          (fun r => !(toNumericCell (getCell r 5) == Cell.null))).length :=
  C7_lookup_merge_row_count joinedEx paramEx statEx rfl rfl rfl
    (by decide) (by decide) (by decide)

/-- C7 counterexample: `paramDup` is already pair-wise duplicate-free
(`drop_duplicates()` removes nothing), yet its code column repeats 60, so
the parameter join fans the single surviving row out into two rows. -/
theorem C7_pair_dedup_fanout_counterexample :
    dropDuplicates ⟨["id", "parameter_name"],
      paramDup.rows.map (fun r => [getCell r 0, getCell r 1])⟩
      = ⟨["id", "parameter_name"], paramDup.rows⟩ ∧
    (joinedEx.rows.filter
      (fun r => !(toNumericCell (getCell r 5) == Cell.null))).length = 1 ∧
    (clean_and_transform_data joinedEx paramDup statEx).toOption.map
      (fun d => d.rows.length) = some 2 := by
  refine ⟨by decide, by decide, by decide⟩

/-- Witness for C10: a no-overlap join keeps a plain `id` column, a
colliding join produces `id_x`/`id_y` and no plain `id`, the rename maps
`id_x` back to `id`, and a successful clean outputs `final_cols`. -/
theorem C10_join_id_columns_witness :
    (∃ out, join_daily_values_with_locations dvTwoRow locOneRow = Except.ok out ∧
      out.cols = dvTwoRow.cols ++ loc_keep ∧ "id" ∈ out.cols) ∧
    (∃ out, join_daily_values_with_locations dvWithId locOneRow = Except.ok out ∧
      "id_x" ∈ out.cols ∧ "id_y" ∈ out.cols ∧ "id" ∉ out.cols) ∧
    (renameCol ⟨["id_x", "value"], []⟩ "id_x" "id").cols = ["id", "value"] ∧
    (∃ out, clean_and_transform_data joinedEx paramEx statEx = Except.ok out ∧
      out.cols = final_cols ∧ "id" ∈ out.cols) := by
  obtain ⟨h1, h2, h3, h4⟩ := C10_join_id_columns
  refine ⟨?_, ?_, ?_, ?_⟩
  · have hok1 : join_daily_values_with_locations dvTwoRow locOneRow
        = Except.ok ((join_daily_values_with_locations dvTwoRow locOneRow).toOption.getD
            ⟨[], []⟩) := by decide
    exact ⟨_, hok1, h1 _ _ _ hok1 (by decide)⟩
  · have hok2 : join_daily_values_with_locations dvWithId locOneRow
        = Except.ok ((join_daily_values_with_locations dvWithId locOneRow).toOption.getD
            ⟨[], []⟩) := by decide
    exact ⟨_, hok2, h2 _ _ _ hok2 (by decide) (by decide)⟩
  · rw [h3 ⟨["id_x", "value"], []⟩]
    rfl
  · have hok4 : clean_and_transform_data joinedEx paramEx statEx
        = Except.ok cleanedEx := by decide
    exact ⟨_, hok4, h4 _ _ _ _ hok4⟩

/-! ## Stable-sort lemmas -/

theorem mem_ordInsert {α : Type} (le : α → α → Bool) (x z : α) (s : List α) :
    z ∈ ordInsert le x s ↔ z = x ∨ z ∈ s := by
  induction s with
  | nil => simp [ordInsert]
  | cons y ys ih =>
    rw [ordInsert]
    by_cases h : le x y = true
    · rw [if_pos h]
      simp [List.mem_cons]
    · rw [if_neg h]
      simp only [List.mem_cons, ih]
      tauto

theorem mem_insSort {α : Type} (le : α → α → Bool) (z : α) (l : List α) :
    z ∈ insSort le l ↔ z ∈ l := by
  induction l with
  | nil => simp [insSort]
  | cons x xs ih =>
    rw [insSort, mem_ordInsert]
    simp only [List.mem_cons, ih]

theorem ordInsert_of_forall_le {α : Type} (le : α → α → Bool) (x : α) (s : List α)
    (h : ∀ z ∈ s, le x z = true) : ordInsert le x s = x :: s := by
  cases s with
  | nil => rfl
  | cons y ys => rw [ordInsert, if_pos (h y (List.mem_cons_self y ys))]

theorem pairwise_ordInsert {α : Type} (le : α → α → Bool)
    (htot : ∀ a b, le a b = true ∨ le b a = true)
    (htrans : ∀ a b c, le a b = true → le b c = true → le a c = true)
    (x : α) (s : List α) (hs : s.Pairwise (fun a b => le a b = true)) :
    (ordInsert le x s).Pairwise (fun a b => le a b = true) := by
  induction s with
  | nil => simp [ordInsert]
  | cons y ys ih =>
    rw [List.pairwise_cons] at hs
    obtain ⟨hy, hys⟩ := hs
    rw [ordInsert]
    by_cases h : le x y = true
    · rw [if_pos h]
      refine List.Pairwise.cons ?_ (List.Pairwise.cons hy hys)
      intro z hz
      rcases List.mem_cons.mp hz with hzy | hzys
      · rw [hzy]
        exact h
      · exact htrans x y z h (hy z hzys)
    · rw [if_neg h]
      refine List.Pairwise.cons ?_ (ih hys)
      intro z hz
      rcases (mem_ordInsert le x z ys).mp hz with hzx | hzys
      · rw [hzx]
        rcases htot y x with h' | h'
        · exact h'
        · exact absurd h' h
      · exact hy z hzys

theorem pairwise_insSort {α : Type} (le : α → α → Bool)
    (htot : ∀ a b, le a b = true ∨ le b a = true)
    (htrans : ∀ a b c, le a b = true → le b c = true → le a c = true)
    (l : List α) : (insSort le l).Pairwise (fun a b => le a b = true) := by
  induction l with
  | nil => simp [insSort]
  | cons x xs ih =>
    rw [insSort]
    exact pairwise_ordInsert le htot htrans x _ ih

theorem filter_ordInsert {α : Type} (le : α → α → Bool)
    (htrans : ∀ a b c, le a b = true → le b c = true → le a c = true)
    (p : α → Bool) (x : α) (s : List α)
    (hs : s.Pairwise (fun a b => le a b = true)) :
    (ordInsert le x s).filter p
      = if p x then ordInsert le x (s.filter p) else s.filter p := by
  induction s with
  | nil =>
    by_cases hp : p x = true
    · rw [if_pos hp]
      simp [ordInsert, List.filter_cons, hp]
    · rw [if_neg hp]
      simp [ordInsert, List.filter_cons, hp]
  | cons y ys ih =>
    rw [List.pairwise_cons] at hs
    obtain ⟨hy, hys⟩ := hs
    rw [ordInsert]
    by_cases hxy : le x y = true
    · rw [if_pos hxy, List.filter_cons]
      by_cases hpx : p x = true
      · rw [if_pos hpx, if_pos hpx,
          ordInsert_of_forall_le le x ((y :: ys).filter p) ?hall]
        case hall =>
          intro z hz
          have hz' := List.mem_of_mem_filter hz
          rcases List.mem_cons.mp hz' with h1 | h2
          · rw [h1]
            exact hxy
          · exact htrans x y z hxy (hy z h2)
      · rw [if_neg hpx, if_neg hpx]
    · rw [if_neg hxy, List.filter_cons, ih hys, List.filter_cons]
      by_cases hpy : p y = true <;> by_cases hpx : p x = true
      · simp [hpy, hpx, ordInsert, hxy]
      · simp [hpy, hpx]
      · simp [hpy, hpx]
      · simp [hpy, hpx]

theorem filter_insSort {α : Type} (le : α → α → Bool)
    (htot : ∀ a b, le a b = true ∨ le b a = true)
    (htrans : ∀ a b c, le a b = true → le b c = true → le a c = true)
    (p : α → Bool) (l : List α) :
    (insSort le l).filter p = insSort le (l.filter p) := by
  induction l with
  | nil => rfl
  | cons x xs ih =>
    rw [insSort, filter_ordInsert le htrans p x _ (pairwise_insSort le htot htrans xs),
      ih, List.filter_cons]
    by_cases hpx : p x = true
    · rw [if_pos hpx, if_pos hpx, insSort]
    · rw [if_neg hpx, if_neg hpx]

theorem insSort_of_ties {α : Type} (le : α → α → Bool) (l : List α)
    (h : ∀ a ∈ l, ∀ b ∈ l, le a b = true) : insSort le l = l := by
  induction l with
  | nil => rfl
  | cons x xs ih =>
    rw [insSort,
      ih (fun a ha b hb => h a (List.mem_cons_of_mem x ha) b (List.mem_cons_of_mem x hb)),
      ordInsert_of_forall_le le x xs
        (fun z hz => h x (List.mem_cons_self x xs) z (List.mem_cons_of_mem x hz))]

theorem getLast_filter_suffix {α : Type} (p : α → Bool) (s : List α)
    (hsuf : s.Pairwise (fun a b => p a = true → p b = true))
    (hex : ∃ x ∈ s, p x = true) :
    s.getLast? = (s.filter p).getLast? := by
  induction s with
  | nil =>
    obtain ⟨x, hx, _⟩ := hex
    cases hx
  | cons a t ih =>
    rw [List.pairwise_cons] at hsuf
    obtain ⟨ha, ht⟩ := hsuf
    by_cases hpa : p a = true
    · have hall : ∀ b ∈ a :: t, p b = true := by
        intro b hb
        rcases List.mem_cons.mp hb with h1 | h2
        · rw [h1]
          exact hpa
        · exact ha b h2 hpa
      rw [List.filter_eq_self.mpr hall]
    · rw [List.filter_cons, if_neg hpa]
      have hex' : ∃ x ∈ t, p x = true := by
        obtain ⟨x, hx, hpx⟩ := hex
        rcases List.mem_cons.mp hx with h1 | h2
        · rw [h1] at hpx
          exact absurd hpx hpa
        · exact ⟨x, h2, hpx⟩
      obtain ⟨x, hx, hpx⟩ := hex'
      cases t with
      | nil => cases hx
      | cons b t' =>
        rw [List.getLast?_cons_cons]
        exact ih ht ⟨x, hx, hpx⟩

theorem timeLe_total (a b : Cell) : timeLe a b = true ∨ timeLe b a = true := by
  cases a <;> cases b <;> simp [timeLe] <;> omega

theorem timeLe_trans (a b c : Cell) :
    timeLe a b = true → timeLe b c = true → timeLe a c = true := by
  cases a <;> cases b <;> cases c <;> simp [timeLe] <;> omega

theorem rowTimeLe_total (ti : Nat) (a b : List Cell) :
    rowTimeLe ti a b = true ∨ rowTimeLe ti b a = true :=
  timeLe_total _ _

theorem rowTimeLe_trans (ti : Nat) (a b c : List Cell) :
    rowTimeLe ti a b = true → rowTimeLe ti b c = true → rowTimeLe ti a c = true :=
  timeLe_trans _ _ _

theorem imax_le_left (a b : Int) : a ≤ imax a b := by
  unfold imax
  split <;> omega

theorem imax_le_right (a b : Int) : b ≤ imax a b := by
  unfold imax
  split <;> omega

theorem init_le_foldl_imax (l : List Int) : ∀ a : Int, a ≤ l.foldl imax a := by
  induction l with
  | nil => exact fun a => le_refl a
  | cons b t ih =>
    intro a
    rw [List.foldl_cons]
    exact le_trans (imax_le_left a b) (ih (imax a b))

theorem le_foldl_imax (l : List Int) : ∀ (a x : Int), (x = a ∨ x ∈ l) →
    x ≤ l.foldl imax a := by
  induction l with
  | nil =>
    intro a x h
    rcases h with h | h
    · exact le_of_eq h
    · cases h
  | cons b t ih =>
    intro a x h
    rw [List.foldl_cons]
    rcases h with h | h
    · rw [h]
      exact le_trans (imax_le_left a b) (init_le_foldl_imax t (imax a b))
    · rcases List.mem_cons.mp h with h1 | h2
      · rw [h1]
        exact le_trans (imax_le_right a b) (init_le_foldl_imax t (imax a b))
      · exact ih (imax a b) x (Or.inr h2)

theorem foldl_imax_mem (l : List Int) : ∀ a : Int,
    l.foldl imax a = a ∨ l.foldl imax a ∈ l := by
  induction l with
  | nil => exact fun a => Or.inl rfl
  | cons b t ih =>
    intro a
    rw [List.foldl_cons]
    rcases ih (imax a b) with h | h
    · rw [h]
      unfold imax
      split
      · right
        exact List.mem_cons_self b t
      · left
        rfl
    · right
      exact List.mem_cons_of_mem b h

/-- C9 (amended): on a cleaned table with the pipeline's schema whose
`time` cells are all datetimes, the Summarizer groups by (site name,
parameter name) and, per group, reports as most recent time the maximal
datetime `M` (rendered `YYYY-MM-DD`) and as most recent value/unit the
value and unit of the LAST input row among those whose time equals `M`
(ties broken by input row order after the stable time sort). Without the
all-datetime hypothesis this fails: a null-time row sorts last and its
value is reported, see the counterexample. -/
theorem C9_summarizer_most_recent (df : DF)
    (hc : df.cols = final_cols)
    (htime : ∀ r ∈ df.rows, cellIsDt (getCell r 4) = true) :
    produce_summary_by_site df = Except.ok
      ((insSort keyLe (pyDedupe (df.rows.filterMap (keyOf 2 7)))).map
        (summaryFor df.rows 2 7 8 4 9)) ∧
    ∀ k : String × String,
      df.rows.filter (keyMatch 2 7 k) ≠ [] →
      ∃ M : Int,
        (summaryFor df.rows 2 7 8 4 9 k).most_recent_time
          = Cell.str (renderDT M) ∧
        (∀ r ∈ df.rows.filter (keyMatch 2 7 k), ∃ t : Int,
          getCell r 4 = Cell.dt t ∧ t ≤ M) ∧
        ∃ rlast, ((df.rows.filter (keyMatch 2 7 k)).filter
            (fun r => getCell r 4 == Cell.dt M)).getLast? = some rlast ∧
          (summaryFor df.rows 2 7 8 4 9 k).most_recent_value
            = roundCell (getCell rlast 8) ∧
          (summaryFor df.rows 2 7 8 4 9 k).unit_of_measure = getCell rlast 9 := by
  obtain ⟨cols, rows⟩ := df
  dsimp only at hc htime
  subst hc
  dsimp only
  have hdt : ∀ r ∈ rows, ∃ t : Int, getCell r 4 = Cell.dt t := by
    intro r hr
    have h := htime r hr
    rcases hcell : getCell r 4 with _ | s | q | t
    · rw [hcell] at h
      exact absurd h (by simp [cellIsDt])
    · rw [hcell] at h
      exact absurd h (by simp [cellIsDt])
    · rw [hcell] at h
      exact absurd h (by simp [cellIsDt])
    · exact ⟨t, rfl⟩
  constructor
  · have e1 : colIdxE ⟨final_cols, rows⟩ "monitoring_location_name" = Except.ok 2 := by
      rw [colIdxE]
      have i : colIdx ⟨final_cols, rows⟩ "monitoring_location_name" = some 2 := by
        show List.findIdx? (fun x => x == "monitoring_location_name") final_cols = some 2
        decide
      rw [i]
    have e2 : colIdxE ⟨final_cols, rows⟩ "parameter_name" = Except.ok 7 := by
      rw [colIdxE]
      have i : colIdx ⟨final_cols, rows⟩ "parameter_name" = some 7 := by
        show List.findIdx? (fun x => x == "parameter_name") final_cols = some 7
        decide
      rw [i]
    have e3 : colIdxE ⟨final_cols, rows⟩ "value" = Except.ok 8 := by
      rw [colIdxE]
      have i : colIdx ⟨final_cols, rows⟩ "value" = some 8 := by
        show List.findIdx? (fun x => x == "value") final_cols = some 8
        decide
      rw [i]
    have e4 : colIdxE ⟨final_cols, rows⟩ "time" = Except.ok 4 := by
      rw [colIdxE]
      have i : colIdx ⟨final_cols, rows⟩ "time" = some 4 := by
        show List.findIdx? (fun x => x == "time") final_cols = some 4
        decide
      rw [i]
    have e5 : colIdxE ⟨final_cols, rows⟩ "unit_of_measure" = Except.ok 9 := by
      rw [colIdxE]
      have i : colIdx ⟨final_cols, rows⟩ "unit_of_measure" = some 9 := by
        show List.findIdx? (fun x => x == "unit_of_measure") final_cols = some 9
        decide
      rw [i]
    rw [produce_summary_by_site, e1]
    simp only [exceptBind_ok]
    rw [e2]
    simp only [exceptBind_ok]
    rw [e3]
    simp only [exceptBind_ok]
    rw [e4]
    simp only [exceptBind_ok]
    rw [e5]
    simp only [exceptBind_ok]
  · intro k hgne
    cases hgeq : rows.filter (keyMatch 2 7 k) with
    | nil => exact absurd hgeq hgne
    | cons r0 g' =>
      have hr0 : r0 ∈ rows.filter (keyMatch 2 7 k) := by
        rw [hgeq]
        exact List.mem_cons_self r0 g'
      obtain ⟨t0, ht0⟩ := hdt r0 (List.mem_of_mem_filter hr0)
      have htimes : (rows.filter (keyMatch 2 7 k)).filterMap
          (fun r => cellDtVal (getCell r 4))
          = t0 :: g'.filterMap (fun r => cellDtVal (getCell r 4)) := by
        rw [hgeq, List.filterMap_cons, ht0]
        rfl
      obtain ⟨M, hM⟩ : ∃ M : Int,
          M = (g'.filterMap (fun r => cellDtVal (getCell r 4))).foldl imax t0 :=
        ⟨_, rfl⟩
      have hMmem : M ∈ (rows.filter (keyMatch 2 7 k)).filterMap
          (fun r => cellDtVal (getCell r 4)) := by
        rw [htimes, hM]
        rcases foldl_imax_mem (g'.filterMap (fun r => cellDtVal (getCell r 4))) t0
          with h | h
        · rw [h]
          exact List.mem_cons_self _ _
        · exact List.mem_cons_of_mem _ h
      have hbound : ∀ r ∈ rows.filter (keyMatch 2 7 k), ∃ t : Int,
          getCell r 4 = Cell.dt t ∧ t ≤ M := by
        intro r hr
        obtain ⟨t, ht⟩ := hdt r (List.mem_of_mem_filter hr)
        refine ⟨t, ht, ?_⟩
        have htmem : t ∈ (rows.filter (keyMatch 2 7 k)).filterMap
            (fun r => cellDtVal (getCell r 4)) :=
          List.mem_filterMap.mpr ⟨r, hr, by rw [ht]; rfl⟩
        rw [htimes] at htmem
        rw [hM]
        rcases List.mem_cons.mp htmem with h1 | h2
        · exact le_foldl_imax _ t0 t (Or.inl h1)
        · exact le_foldl_imax _ t0 t (Or.inr h2)
      have hrM : ∃ rM ∈ rows.filter (keyMatch 2 7 k), getCell rM 4 = Cell.dt M := by
        obtain ⟨r, hr, hfr⟩ := List.mem_filterMap.mp hMmem
        obtain ⟨t, ht⟩ := hdt r (List.mem_of_mem_filter hr)
        rw [ht] at hfr
        simp only [cellDtVal, Option.some.injEq] at hfr
        exact ⟨r, hr, by rw [ht, hfr]⟩
      have hcomm : (insSort (rowTimeLe 4) rows).filter (keyMatch 2 7 k)
          = insSort (rowTimeLe 4) (rows.filter (keyMatch 2 7 k)) :=
        filter_insSort (rowTimeLe 4) (rowTimeLe_total 4) (rowTimeLe_trans 4)
          (keyMatch 2 7 k) rows
      have hsuffix : (insSort (rowTimeLe 4) (rows.filter (keyMatch 2 7 k))).Pairwise
          (fun a b => (getCell a 4 == Cell.dt M) = true →
            (getCell b 4 == Cell.dt M) = true) := by
        apply List.Pairwise.imp_of_mem ?_
          (pairwise_insSort (rowTimeLe 4) (rowTimeLe_total 4) (rowTimeLe_trans 4) _)
        intro a b ha hb hle hpa
        have hb' : b ∈ rows.filter (keyMatch 2 7 k) := (mem_insSort _ _ _).mp hb
        obtain ⟨tb, htb, htbM⟩ := hbound b hb'
        have hpa' : getCell a 4 = Cell.dt M := by simpa using hpa
        rw [rowTimeLe, hpa', htb] at hle
        simp only [timeLe, decide_eq_true_eq] at hle
        have htbeq : tb = M := le_antisymm htbM hle
        rw [htb, htbeq]
        simp
      have hexists : ∃ x ∈ insSort (rowTimeLe 4) (rows.filter (keyMatch 2 7 k)),
          (getCell x 4 == Cell.dt M) = true := by
        obtain ⟨rM, hrMmem, hrMeq⟩ := hrM
        exact ⟨rM, (mem_insSort _ _ _).mpr hrMmem, by rw [hrMeq]; simp⟩
      have hlast := getLast_filter_suffix (fun r => getCell r 4 == Cell.dt M)
        (insSort (rowTimeLe 4) (rows.filter (keyMatch 2 7 k))) hsuffix hexists
      have hties : insSort (rowTimeLe 4) ((rows.filter (keyMatch 2 7 k)).filter
          (fun r => getCell r 4 == Cell.dt M))
          = (rows.filter (keyMatch 2 7 k)).filter
            (fun r => getCell r 4 == Cell.dt M) := by
        apply insSort_of_ties
        intro a ha b hb
        have hpa : getCell a 4 = Cell.dt M := by simpa using List.of_mem_filter ha
        have hpb : getCell b 4 = Cell.dt M := by simpa using List.of_mem_filter hb
        rw [rowTimeLe, hpa, hpb]
        simp [timeLe]
      have hrecent : ((insSort (rowTimeLe 4) rows).filter (keyMatch 2 7 k)).getLast?
          = ((rows.filter (keyMatch 2 7 k)).filter
              (fun r => getCell r 4 == Cell.dt M)).getLast? := by
        rw [hcomm, hlast,
          filter_insSort (rowTimeLe 4) (rowTimeLe_total 4) (rowTimeLe_trans 4) _ _,
          hties]
      obtain ⟨rM, hrMmem, hrMeq⟩ := hrM
      have hne2 : (rows.filter (keyMatch 2 7 k)).filter
          (fun r => getCell r 4 == Cell.dt M) ≠ [] := by
        intro hnil
        have hmem : rM ∈ (rows.filter (keyMatch 2 7 k)).filter
            (fun r => getCell r 4 == Cell.dt M) :=
          List.mem_filter.mpr ⟨hrMmem, by rw [hrMeq]; simp⟩
        rw [hnil] at hmem
        cases hmem
      cases hq : ((rows.filter (keyMatch 2 7 k)).filter
          (fun r => getCell r 4 == Cell.dt M)).getLast? with
      | none => exact absurd (List.getLast?_eq_none_iff.mp hq) hne2
      | some rlast =>
        refine ⟨M, ?_, ?_, ?_⟩
        · show (summaryFor rows 2 7 8 4 9 k).most_recent_time = _
          simp only [summaryFor]
          rw [htimes, hM]
        · intro r hr
          exact hbound r (by rw [hgeq]; exact hr)
        · refine ⟨rlast, ?_, ?_, ?_⟩
          · rw [← hgeq]
            exact hq
          · show (summaryFor rows 2 7 8 4 9 k).most_recent_value = _
            simp only [summaryFor]
            rw [hrecent, hq]
          · show (summaryFor rows 2 7 8 4 9 k).unit_of_measure = _
            simp only [summaryFor]
            rw [hrecent, hq]

unseal Rat.add Rat.mul Rat.inv Rat.sub in
/-- Witness for C9 at `summaryDfEx` (values 1.0 at T1 = 2024-01-01 and
3.0 at T2 = 2024-01-02 in one group): obs = 2, min = 1, max = 3,
avg = 2, most recent time = T2, most recent value = 3. -/
theorem C9_summarizer_most_recent_witness :
    (summaryDfEx.cols = final_cols ∧
      ∀ r ∈ summaryDfEx.rows, cellIsDt (getCell r 4) = true) ∧
    (produce_summary_by_site summaryDfEx = Except.ok
      ((insSort keyLe (pyDedupe (summaryDfEx.rows.filterMap (keyOf 2 7)))).map
        (summaryFor summaryDfEx.rows 2 7 8 4 9)) ∧
     ∀ k : String × String,
      summaryDfEx.rows.filter (keyMatch 2 7 k) ≠ [] →
      ∃ M : Int,
        (summaryFor summaryDfEx.rows 2 7 8 4 9 k).most_recent_time
          = Cell.str (renderDT M) ∧
        (∀ r ∈ summaryDfEx.rows.filter (keyMatch 2 7 k), ∃ t : Int,
          getCell r 4 = Cell.dt t ∧ t ≤ M) ∧
        ∃ rlast, ((summaryDfEx.rows.filter (keyMatch 2 7 k)).filter
            (fun r => getCell r 4 == Cell.dt M)).getLast? = some rlast ∧
          (summaryFor summaryDfEx.rows 2 7 8 4 9 k).most_recent_value
            = roundCell (getCell rlast 8) ∧
          (summaryFor summaryDfEx.rows 2 7 8 4 9 k).unit_of_measure
            = getCell rlast 9) ∧
    produce_summary_by_site summaryDfEx = Except.ok
      [{ site := "Site A", parameter := "Discharge", observations := 2,
         min_value := Cell.num 1, max_value := Cell.num 3,
         avg_value := Cell.num 2,
         most_recent_time := Cell.str "2024-01-02",
         most_recent_value := Cell.num 3,
         unit_of_measure := Cell.str "ft3/s" }] :=
  ⟨⟨rfl, by decide⟩, C9_summarizer_most_recent summaryDfEx rfl (by decide), by decide⟩

unseal Rat.add Rat.mul Rat.inv Rat.sub in
/-- C9 counterexample: with a null-time row in the group, the reported
most recent value (5.0, from the null-time row, which sorts last) is not
the value at the reported most recent time 2024-01-01 (whose only row
has value 1.0). -/
theorem C9_null_time_recent_counterexample :
    produce_summary_by_site summaryNullTimeDf = Except.ok
      [{ site := "Site A", parameter := "Discharge", observations := 2,
         min_value := Cell.num 1, max_value := Cell.num 5,
         avg_value := Cell.num 3,
         most_recent_time := Cell.str "2024-01-01",
         most_recent_value := Cell.num 5,
         unit_of_measure := Cell.str "ft3/s" }] ∧
    (summaryNullTimeDf.rows.filter
      (fun r => getCell r 4 == Cell.dt 20240101)).map (fun r => getCell r 8)
      = [Cell.num 1] := by
  exact ⟨by decide, by decide⟩
